import Mathlib

/-! Verification development for the GymApp analytics and training-state
engine, `src/back/google_sheets.py` (class `GoogleSheetsManager`).

The embedding works at the level of parsed spreadsheet cells:

* `DataParser.to_float` / `DataParser.to_int` results are carried as `ℚ` / `ℤ`
  fields of `LogRow` (the source defaults malformed cells to `0`);
* `_parse_date_flexible` outcomes are carried as a `DateCell`:
  `empty` for a blank date token (the row is skipped), `unparsed` for a
  non-empty token that matches no format (the set is kept with `date = None`),
  `parsed d` for a successfully parsed calendar day, encoded as a day serial
  `Nat`.  The canonical `date_str` written by `strftime` is order-isomorphic
  to the day serial for the relevant year range, so comparisons and
  groupings of `date_str` are modelled by the `Nat` day;
* Python floats are modelled as `ℚ`; Python `round` is banker's rounding,
  modelled by `roundHalfEven`; `datetime` instants are modelled as `ℚ` days
  (parsed dates are whole days, `now` may fall inside a day);
* the reads of the BASELINE and BASELINE_PROPOSALS sheets that feed
  `get_analytics_v4` (`_get_baselines_map`, `_get_pending_proposals`) are
  abstracted into already-parsed inputs, while `confirm_baseline_proposal`
  is modelled directly on raw sheets (`List (List String)`, header row
  included) because it reads and writes raw cells.
-/

namespace GymApp

/-- Python `round(x)`: banker's rounding, half to even. -/
def roundHalfEven (x : ℚ) : ℤ :=
  if x - ⌊x⌋ < 1/2 then ⌊x⌋
  else if (1:ℚ)/2 < x - ⌊x⌋ then ⌊x⌋ + 1
  else if ⌊x⌋ % 2 = 0 then ⌊x⌋ else ⌊x⌋ + 1

/-- Python `int(x)` on a float: truncation toward zero. -/
def truncQ (x : ℚ) : ℤ := if 0 ≤ x then ⌊x⌋ else ⌈x⌉

/-- Python `round(x, 2)`. -/
def roundQ2 (x : ℚ) : ℚ := (roundHalfEven (x * 100) : ℚ) / 100

/-- Python `round(x, 1)`. -/
def roundQ1 (x : ℚ) : ℚ := (roundHalfEven (x * 10) : ℚ) / 10

/-- Insertion step for ascending `Nat` sort (models Python `sorted`). -/
def insertAscNat (x : Nat) : List Nat → List Nat
  | [] => [x]
  | y :: ys => if x ≤ y then x :: y :: ys else y :: insertAscNat x ys

/-- Ascending sort of `Nat` days, modelling Python `sorted(...)`. -/
def sortAscNat (l : List Nat) : List Nat := l.foldr insertAscNat []

/-- Insertion step for descending `Nat` sort. -/
def insertDescNat (x : Nat) : List Nat → List Nat
  | [] => [x]
  | y :: ys => if y ≤ x then x :: y :: ys else y :: insertDescNat x ys

/-- Descending sort of `Nat` days, modelling `sorted(..., reverse=True)`. -/
def sortDescNat (l : List Nat) : List Nat := l.foldr insertDescNat []

/-- Insertion step for ascending `ℚ` sort. -/
def insertAscQ (x : ℚ) : List ℚ → List ℚ
  | [] => [x]
  | y :: ys => if x ≤ y then x :: y :: ys else y :: insertAscQ x ys

/-- Ascending sort of `ℚ` values, modelling Python `sorted(...)`. -/
def sortAscQ (l : List ℚ) : List ℚ := l.foldr insertAscQ []

/-- `statistics.median`: sort; odd length takes the middle element, even
length averages the two middle elements.  (`statistics.median` raises on an
empty list; every use below is guarded by a non-emptiness check, and the `0`
default of this model is unreachable there.) -/
def pyMedian (l : List ℚ) : ℚ :=
  let s := sortAscQ l
  let n := s.length
  if n % 2 = 1 then s.getD (n / 2) 0
  else (s.getD (n / 2 - 1) 0 + s.getD (n / 2) 0) / 2

/-- `max(gaps) if gaps else 0` over the consecutive differences of a list of
day serials (google_sheets.py:868-869). -/
def largestConsecutiveGap (l : List Nat) : ℤ :=
  match (l.zip l.tail).map (fun p => (p.2 : ℤ) - (p.1 : ℤ)) with
  | [] => 0
  | g :: gs => gs.foldl max g

/-- Maximum of two optional rationals (`none` = absent). -/
def optMax : Option ℚ → Option ℚ → Option ℚ
  | none, b => b
  | some x, none => some x
  | some x, some y => some (max x y)

/-- `max` of a list of rationals as an `Option` (none on empty). -/
def listMaxQ : List ℚ → Option ℚ
  | [] => none
  | x :: xs => optMax (some x) (listMaxQ xs)

/-- Outcome of `_parse_date_flexible` on the date cell of a LOG row
(google_sheets.py:737-760): a blank token gives `(None, '')`, a non-empty
token matching no format gives `(None, raw)`, and a successful parse gives
the datetime plus its canonical `'%Y.%m.%d'` string (modelled by the day
serial). -/
inductive DateCell
  | empty
  | unparsed
  | parsed (day : Nat)
deriving DecidableEq, Repr

/-- Returns `true` exactly when the date cell parsed to a calendar day. -/
def DateCell.isParsed : DateCell → Bool
  | .parsed _ => true
  | _ => false

/-- One LOG data row after cell-level parsing: the date cell outcome, the
`Exercise_ID` cell, the `to_float` of the legacy `Weight` cell and of the
`Total_Weight` cell, and the `to_int` of the `Reps` cell. -/
structure LogRow where
  dateCell : DateCell
  exId : String
  weightCell : ℚ
  totalWeightCell : ℚ
  repsCell : ℤ
deriving DecidableEq, Repr

/-- The fields of an EXERCISES entry consumed by the analytics path
(`get_all_exercises` guarantees `equipmentType ∈ {barbell, dumbbell,
machine}` and `exerciseType ∈ {compound, isolation}` and unique uuid ids;
this model carries the fields as given). -/
structure Exercise where
  id : String
  name : String
  equipmentType : String
  exerciseType : String
deriving DecidableEq, Repr

/-- One element of the `all_sets` stream of `get_analytics_v4`
(google_sheets.py:821-830).  `date` is `None` for a non-empty yet unparseable
date token; `date_str` of a dated set is determined by (and modelled as) the
day serial. -/
structure SetRec where
  date : Option Nat
  exId : String
  weight : ℚ
  reps : ℤ
  rir : Option ℤ
  equipmentType : String
  exerciseType : String
deriving DecidableEq, Repr

/-- One parsed row of the BASELINE ledger as read by `_get_baselines_map`
(google_sheets.py:957-976). -/
structure StoredBaseline where
  baselineWeight : ℚ
  lastUpdated : String
  peak90d : ℚ
  status : String
deriving DecidableEq, Repr

/-- One pending proposal as returned by `_get_pending_proposals`
(google_sheets.py:1022-1042). -/
structure ProposalOut where
  exerciseId : String
  oldBaseline : ℚ
  newBaseline : ℚ
  step : ℚ
  expiresAt : String
  proposalId : String
deriving DecidableEq, Repr

/-- The `frequencyScore` object of the analytics response
(google_sheets.py:921-926). -/
structure FrequencyScore where
  value : ℚ
  status : String
  actual : ℕ
  target : ℤ
deriving DecidableEq, Repr

/-- The `maxGap` object of the analytics response (google_sheets.py:927-931). -/
structure MaxGapInfo where
  value : ℤ
  status : String
  interpretation : String
deriving DecidableEq, Repr

/-- The `returnToBaseline` object (google_sheets.py:890-896). -/
structure ReturnToBaseline where
  value : ℤ
  visible : Bool
deriving DecidableEq, Repr

/-- One element of the `baselines` list of the analytics response
(google_sheets.py:905-910). -/
structure BaselineEntry where
  exerciseId : String
  name : String
  baseline : Option ℚ
  status : String
deriving DecidableEq, Repr

/-- The analytics v4 response dictionary (google_sheets.py:919-937). -/
structure AnalyticsV4 where
  mode : String
  frequencyScore : FrequencyScore
  maxGap : MaxGapInfo
  returnToBaseline : Option ReturnToBaseline
  stabilityGate : Bool
  baselines : List BaselineEntry
  proposals : List ProposalOut
  metaPeriod : ℤ
deriving DecidableEq, Repr

/-- The exact key set of the response dictionary literal built by
`get_analytics_v4` (google_sheets.py:919-937). -/
def analyticsV4ResponseKeys : List String :=
  ["mode", "frequencyScore", "maxGap", "returnToBaseline", "stabilityGate",
   "baselines", "proposals", "meta"]

/-- `_empty_analytics_v4` (google_sheets.py:1075-1086). -/
def empty_analytics_v4 (period : ℤ) : AnalyticsV4 :=
  { mode := "Поддержание"
    frequencyScore :=
      { value := 0, status := "red", actual := 0
        target := max 1 (truncQ ((period : ℚ) / 7 * 3)) }
    maxGap := { value := 0, status := "ok", interpretation := "Нет данных" }
    returnToBaseline := none
    stabilityGate := false
    baselines := []
    proposals := []
    metaPeriod := period }

/-- `_get_weight_from_row` (google_sheets.py:139-143): the `Total_Weight`
cell when it is truthy and `> 0`, else the `Weight` cell.  The arguments are
in the source's order: `w` is the cell at `weight_idx`, `tw` the cell at
`total_weight_idx`. -/
def get_weight_from_row (w tw : ℚ) : ℚ :=
  if tw ≠ 0 ∧ 0 < tw then tw else w

/-- Weight used by `get_analytics_v4` for a row (google_sheets.py:812):
`self._get_weight_from_row(row, weight_idx, total_weight_idx)` with the
resolved legacy `Weight` column and the `Total_Weight` column. -/
def analytics_row_weight (r : LogRow) : ℚ :=
  get_weight_from_row r.weightCell r.totalWeightCell

/-- Weight used by `get_exercise_history` for a row (google_sheets.py:568):
the source passes `total_weight_idx` for BOTH arguments
(`self._get_weight_from_row(row, total_weight_idx or 4, total_weight_idx ...)`),
so the fallback cell is the `Total_Weight` cell itself. -/
def exercise_history_row_weight (r : LogRow) : ℚ :=
  get_weight_from_row r.totalWeightCell r.totalWeightCell

/-- Weight used by `get_global_history` for a row (google_sheets.py:642):
`self._get_weight_from_row(row, total_weight_idx, total_weight_idx)` — again
the `Total_Weight` cell for both arguments. -/
def global_history_row_weight (r : LogRow) : ℚ :=
  get_weight_from_row r.totalWeightCell r.totalWeightCell

/-- `exercises_map.get(ex_id, ...)`: the map is a dict comprehension keyed by
id; ids are unique uuids, so first match suffices. -/
def findExercise (exs : List Exercise) (id : String) : Option Exercise :=
  exs.find? (fun e => e.id = id)

/-- One iteration of the `all_sets` loop of `get_analytics_v4`
(google_sheets.py:806-830): skip on a blank date token, skip when the
extracted weight is `≤ 0` or reps `≤ 0`; `rir` is always `None` because the
source hardcodes `rir_idx = -1` (google_sheets.py:803); equipment and
exercise type default to `'barbell'` / `'compound'` for an unknown exercise
id. -/
def buildSetFromRow (exs : List Exercise) (r : LogRow) : Option SetRec :=
  match r.dateCell with
  | .empty => none
  | dc =>
    let weight := get_weight_from_row r.weightCell r.totalWeightCell
    if weight ≤ 0 ∨ r.repsCell ≤ 0 then none
    else
      let exInfo := findExercise exs r.exId
      some { date := match dc with | .parsed d => some d | _ => none
             exId := r.exId
             weight := weight
             reps := r.repsCell
             rir := none
             equipmentType := (exInfo.map (fun e => e.equipmentType)).getD "barbell"
             exerciseType := (exInfo.map (fun e => e.exerciseType)).getD "compound" }

/-- The full `all_sets` stream of `get_analytics_v4`. -/
def buildAllSets (exs : List Exercise) (rows : List LogRow) : List SetRec :=
  rows.filterMap (buildSetFromRow exs)

/-- `rir_ok = s['rir'] is None or (1 <= s['rir'] <= 3)`
(google_sheets.py:997). -/
def rirOkB : Option ℤ → Bool
  | none => true
  | some r => decide (1 ≤ r ∧ r ≤ 3)

/-- First-match association-list lookup, modelling a Python dict read. -/
def alookup (m : List (Nat × ℚ)) (d : Nat) : Option ℚ :=
  match m with
  | [] => none
  | (k, v) :: rest => if k = d then some v else alookup rest d

/-- Association-list write, modelling a Python dict assignment: replaces the
existing binding in place or appends a new one. -/
def aset (m : List (Nat × ℚ)) (d : Nat) (w : ℚ) : List (Nat × ℚ) :=
  match m with
  | [] => [(d, w)]
  | (k, v) :: rest => if k = d then (k, w) :: rest else (k, v) :: aset rest d w

/-- The condition `d not in by_date or s['weight'] > by_date[d]['weight']`
of `_calc_baseline_for_exercise` (google_sheets.py:996). -/
def betterB (m : List (Nat × ℚ)) (d : Nat) (w : ℚ) : Bool :=
  match alookup m d with
  | none => true
  | some old => decide (old < w)

/-- One iteration of the `by_date` loop of `_calc_baseline_for_exercise`
(google_sheets.py:990-999): sets without a parsed date are skipped; a set
with reps inside the band replaces the day's entry when the day is absent or
its weight is strictly larger, provided the effort-rating check passes
(`if rir_ok or s['rir'] is None` — the second disjunct is redundant but kept
from the source). -/
def byDateStep (repsMin repsMax : ℤ) (m : List (Nat × ℚ)) (s : SetRec) :
    List (Nat × ℚ) :=
  match s.date with
  | none => m
  | some d =>
    if repsMin ≤ s.reps ∧ s.reps ≤ repsMax then
      if betterB m d s.weight then
        if rirOkB s.rir || s.rir.isNone then aset m d s.weight else m
      else m
    else m

/-- `_calc_baseline_for_exercise` (google_sheets.py:978-1020). -/
def calc_baseline_for_exercise (ex_id : String) (ex : Exercise)
    (all_sets : List SetRec) : Option ℚ :=
  let ex_sets := all_sets.filter (fun s => s.exId = ex_id)
  if ex_sets.isEmpty then none
  else
    let band : ℤ × ℤ := if ex.exerciseType = "compound" then (6, 12) else (8, 15)
    let by_date := ex_sets.foldl (byDateStep band.1 band.2) []
    let sorted_dates := (sortDescNat (by_date.map Prod.fst)).take 8
    let candidates := sorted_dates.filterMap (alookup by_date)
    if candidates.length < 4 then none
    else
      let trimmed :=
        if 10 ≤ candidates.length then
          (sortAscQ candidates).take
            (candidates.length - max 1 (candidates.length / 10))
        else if 4 ≤ candidates.length then (sortAscQ candidates).dropLast
        else candidates
      if trimmed.isEmpty then none
      else
        let step : ℚ := if ex.equipmentType = "barbell" then 5/2 else 1
        some (roundQ1 ((roundHalfEven (pyMedian trimmed / step) : ℚ) * step))

/-- `baselines_map.get(ex_id, {})` on the parsed BASELINE map. -/
def lookupStored (bls : List (String × StoredBaseline)) (id : String) :
    Option StoredBaseline :=
  (bls.find? (fun p => p.1 = id)).map Prod.snd

/-- Python truthiness of `bl or stored_weight` for an optional float
(`0.0` is falsy). -/
def pyOrQ (a b : Option ℚ) : Option ℚ :=
  match a with
  | some x => if x = 0 then b else some x
  | none => b

/-- Python truthiness of an optional float (`if bl`). -/
def blTruthy : Option ℚ → Bool
  | some x => decide (x ≠ 0)
  | none => false

/-- The body of `get_analytics_v4` from the `all_sets` stream on
(google_sheets.py:832-949).  `storedBl` is the `_get_baselines_map` result,
`props` the `_get_pending_proposals` result, `now` the `datetime.now()`
instant in days. -/
def analyticsFromSets (allSets : List SetRec) (exs : List Exercise)
    (storedBl : List (String × StoredBaseline)) (props : List ProposalOut)
    (period : ℤ) (now : ℚ) : AnalyticsV4 :=
  if allSets.isEmpty then empty_analytics_v4 period
  else if ¬ (allSets.any (fun s => s.date.isSome)) then empty_analytics_v4 period
  else
    let window : ℚ := now - (period : ℚ)
    let setsInPeriod := allSets.filter (fun s =>
      match s.date with
      | some d => decide (window ≤ (d : ℚ))
      | none => false)
    let sessionDates := (setsInPeriod.filterMap (fun s => s.date)).dedup
    let targetSessions : ℤ := max 1 (truncQ ((period : ℚ) / 7 * 3))
    let actualSessions : ℕ := sessionDates.length
    let fsValue : ℚ :=
      if 0 < targetSessions then
        roundQ2 ((actualSessions : ℚ) / (targetSessions : ℚ))
      else 0
    let fsStatus :=
      if (4:ℚ)/5 ≤ fsValue then "green"
      else if (3:ℚ)/5 ≤ fsValue then "yellow"
      else "red"
    let uniqueDates := sortAscNat ((allSets.filterMap (fun s => s.date)).dedup)
    let maxGap : ℤ :=
      if 2 ≤ uniqueDates.length then largestConsecutiveGap uniqueDates else 0
    let mgStatus :=
      if maxGap ≤ 4 then "ok"
      else if maxGap ≤ 7 then "warning"
      else "vkat"
    let mgInterpretation :=
      if maxGap ≤ 4 then "Регулярно"
      else if maxGap ≤ 7 then "Потребуется адаптация"
      else "Режим Вкат"
    let mode :=
      if 7 < maxGap then "Вкат"
      else if fsValue < (3:ℚ)/5 then "Поддержание"
      else "Стабильный"
    let returnToBaseline : Option ReturnToBaseline :=
      if 7 < maxGap then
        (if ¬ storedBl.isEmpty then some { value := 0, visible := true } else none)
      else none
    let baselinesList := exs.map (fun ex =>
      let bl := calc_baseline_for_exercise ex.id ex allSets
      let stored := lookupStored storedBl ex.id
      { exerciseId := ex.id
        name := ex.name
        baseline := pyOrQ bl (stored.map (fun st => st.baselineWeight))
        status :=
          match stored with
          | some st => st.status
          | none => if blTruthy bl then "ready" else "locked" : BaselineEntry })
    let stabilityGate :=
      decide ((3:ℚ)/5 ≤ fsValue ∧ maxGap ≤ 45 ∧ (7:ℤ) ≤ 999)
    { mode := mode
      frequencyScore :=
        { value := fsValue, status := fsStatus
          actual := actualSessions, target := targetSessions }
      maxGap :=
        { value := maxGap, status := mgStatus
          interpretation := mgInterpretation }
      returnToBaseline := returnToBaseline
      stabilityGate := stabilityGate
      baselines := baselinesList
      proposals := props
      metaPeriod := period }

/-- `get_analytics_v4` (google_sheets.py:762-949).  `rows` are the LOG data
rows (the source's `all_values` minus the header row; `len(all_values) < 2`
is `rows = []` here).  Header detection and column resolution
(google_sheets.py:783-803) are identity on this already-columned model. -/
def get_analytics_v4 (rows : List LogRow) (exs : List Exercise)
    (storedBl : List (String × StoredBaseline)) (props : List ProposalOut)
    (period : ℤ) (now : ℚ) : AnalyticsV4 :=
  if rows.isEmpty then empty_analytics_v4 period
  else analyticsFromSets (buildAllSets exs rows) exs storedBl props period now

/-! Raw-sheet model for the proposal confirmation workflow.  A sheet is
`get_all_values()` output: the list of rows, header row included, each row a
list of cell strings. -/

/-- A raw worksheet snapshot (header row included). -/
abbrev Sheet := List (List String)

/-- `worksheet.update_cell(row, col, v)` restricted to one row: writes cell
index `c` (0-based), padding the row with empty cells as the grid does. -/
def setCell : List String → Nat → String → List String
  | [], 0, v => [v]
  | [], Nat.succ n, v => "" :: setCell [] n v
  | _ :: rest, 0, v => v :: rest
  | c :: rest, Nat.succ n, v => c :: setCell rest n v

/-- The scan of `confirm_baseline_proposal` (google_sheets.py:1052-1053):
the first data row with `len(row) > 8 and row[8] == proposal_id`. -/
def findProposalRow : List (List String) → String → Option (List String)
  | [], _ => none
  | row :: rest, pid =>
    if 8 < row.length ∧ row.getD 8 "" = pid then some row
    else findProposalRow rest pid

/-- Position (0-based) of the first data row matching the proposal id —
the loop counter `i` of `confirm_baseline_proposal` (google_sheets.py:1052)
relative to the data rows. -/
def findIdxRows : List (List String) → String → Option Nat
  | [], _ => none
  | row :: rest, pid =>
    if 8 < row.length ∧ row.getD 8 "" = pid then some 0
    else (findIdxRows rest pid).map (fun m => m + 1)

/-- Sheet-level (0-based, header included) index of the row the source's
loop updates: `enumerate(rows[1:], start=2)` matches sheet row `i`
(1-based), i.e. 0-based index `i - 1 = data index + 1`. -/
def findProposalIdx (ps : Sheet) (pid : String) : Option Nat :=
  (findIdxRows (ps.drop 1) pid).map (fun m => m + 1)

/-- `sheet.update_cell(i, 8, action)` (google_sheets.py:1054) applied to the
data rows: the first row matching the proposal id gets its status cell
(column 8, 0-based index 7) overwritten with the action. -/
def updateProposalRows : List (List String) → String → String → List (List String)
  | [], _, _ => []
  | row :: rest, pid, action =>
    if 8 < row.length ∧ row.getD 8 "" = pid then setCell row 7 action :: rest
    else row :: updateProposalRows rest pid action

/-- The BASELINE-sheet update of the CONFIRM branch
(google_sheets.py:1059-1068), on the data rows: the first row with
`bl_row and bl_row[0] == ex_id` gets cells 2/3/5 (1-based) set to the new
baseline, the date and `'updated'`; if no row matches, the for-else appends
`[ex_id, new_baseline, today, '', 'updated']`. -/
def applyConfirmRows : List (List String) → String → String → String → List (List String)
  | [], exId, nb, today => [[exId, nb, today, "", "updated"]]
  | row :: rest, exId, nb, today =>
    if row ≠ [] ∧ row.getD 0 "" = exId then
      setCell (setCell (setCell row 1 nb) 2 today) 4 "updated" :: rest
    else row :: applyConfirmRows rest exId nb today

/-- The CONFIRM branch's effect on the whole BASELINE sheet (header kept). -/
def applyConfirmBaseline (bs : Sheet) (exId nb today : String) : Sheet :=
  match bs with
  | [] => [[exId, nb, today, "", "updated"]]
  | hdr :: rest => hdr :: applyConfirmRows rest exId nb today

/-- Observer for the stored Baseline of an exercise on the raw sheet: the
(weight cell, status cell) of the first data row whose first cell is the
exercise id — the same scan `confirm_baseline_proposal` itself uses to
locate the row (google_sheets.py:1061-1062). -/
def lookupBaselineRows : List (List String) → String → Option (String × String)
  | [], _ => none
  | row :: rest, exId =>
    if row ≠ [] ∧ row.getD 0 "" = exId then some (row.getD 1 "", row.getD 4 "")
    else lookupBaselineRows rest exId

/-- `lookupBaselineRows` on a whole sheet (skipping the header row). -/
def lookupBaselineCells (bs : Sheet) (exId : String) : Option (String × String) :=
  lookupBaselineRows (bs.drop 1) exId

/-- Result dictionary of `confirm_baseline_proposal`. -/
structure ConfirmResult where
  success : Bool
  error : Option String
  action : Option String
deriving DecidableEq, Repr

/-- Full outcome of `confirm_baseline_proposal`: the returned dictionary and
the two sheets after the call. -/
structure ConfirmOutcome where
  result : ConfirmResult
  proposalsSheet : Sheet
  baselineSheet : Sheet
deriving DecidableEq, Repr

/-- `confirm_baseline_proposal` (google_sheets.py:1044-1073).  `ps` is the
BASELINE_PROPOSALS sheet, `bs` the BASELINE sheet, `today` the
`datetime.now(MOSCOW_TZ)` date string. -/
def confirm_baseline_proposal (ps bs : Sheet) (pid action today : String) :
    ConfirmOutcome :=
  if ps.length < 2 then
    { result := { success := false, error := some "No proposals", action := none }
      proposalsSheet := ps, baselineSheet := bs }
  else
    match findProposalRow (ps.drop 1) pid with
    | none =>
      { result := { success := false, error := some "Proposal not found", action := none }
        proposalsSheet := ps, baselineSheet := bs }
    | some row =>
      let ps' : Sheet :=
        match ps with
        | [] => []
        | hdr :: rest => hdr :: updateProposalRows rest pid action
      if action = "CONFIRM" then
        { result := { success := true, error := none, action := some action }
          proposalsSheet := ps'
          baselineSheet := applyConfirmBaseline bs (row.getD 0 "") (row.getD 2 "") today }
      else
        { result := { success := true, error := none, action := some action }
          proposalsSheet := ps', baselineSheet := bs }

/-! Reference definitions, written from the specification's words, to be
compared with the source embeddings. -/

/-- Reference (spec §4.4): a set qualifies as a baseline candidate when it
belongs to a training day (has a parsed date), its reps lie in the
exercise-type rep band, and its effort rating, when present, lies in 1–3. -/
def qualifyingSet (repsMin repsMax : ℤ) (s : SetRec) : Bool :=
  s.date.isSome && decide (repsMin ≤ s.reps ∧ s.reps ≤ repsMax) && rirOkB s.rir

/-- Reference: the training day's highest-load qualifying set's weight. -/
def refDayBest (repsMin repsMax : ℤ) (sets : List SetRec) (d : Nat) : Option ℚ :=
  listMaxQ ((sets.filter (fun s =>
    qualifyingSet repsMin repsMax s && s.date == some d)).map (fun s => s.weight))

/-- Reference: the training days that have at least one qualifying set,
most recent first. -/
def refCandidateDays (repsMin repsMax : ℤ) (sets : List SetRec) : List Nat :=
  sortDescNat (((sets.filter (qualifyingSet repsMin repsMax)).filterMap
    (fun s => s.date)).dedup)

/-- Reference candidate baseline (claim C2 / spec §4.4): per-day best
qualifying weights, restricted to the last 8 such training days; `none` when
fewer than 4 remain; otherwise drop the top `⌈n/10⌉` candidates when `n ≥ 10`
and the single highest otherwise (dropping the last elements of the
ascending sort removes exactly the top candidates), and return the median of
the remaining candidates rounded to the equipment step (2.5 kg for barbell
equipment, 1 kg otherwise). -/
def refCandidateBaseline (ex_id : String) (ex : Exercise)
    (all_sets : List SetRec) : Option ℚ :=
  let ex_sets := all_sets.filter (fun s => s.exId = ex_id)
  let band : ℤ × ℤ := if ex.exerciseType = "compound" then (6, 12) else (8, 15)
  let days := (refCandidateDays band.1 band.2 ex_sets).take 8
  let candidates := days.filterMap (refDayBest band.1 band.2 ex_sets)
  if candidates.length < 4 then none
  else
    let trimmed :=
      if 10 ≤ candidates.length then
        (sortAscQ candidates).take (candidates.length - (candidates.length + 9) / 10)
      else (sortAscQ candidates).dropLast
    let step : ℚ := if ex.equipmentType = "barbell" then 5/2 else 1
    some ((roundHalfEven (pyMedian trimmed / step) : ℚ) * step)

/-- Reference (claim C5 / spec §4.3): the distinct training days of the
entire parsed history — the days of dated sets of the `all_sets` stream. -/
def trainingDays (exs : List Exercise) (rows : List LogRow) : List Nat :=
  ((buildAllSets exs rows).filterMap (fun s => s.date)).dedup

/-- Reference (claim C7): the distinct training dates inside the trailing
period window. -/
def refActualSessions (exs : List Exercise) (rows : List LogRow)
    (period : ℤ) (now : ℚ) : ℕ :=
  (((buildAllSets exs rows).filter (fun s =>
      match s.date with
      | some d => decide (now - (period : ℚ) ≤ (d : ℚ))
      | none => false)).filterMap (fun s => s.date)).dedup.length

/-! Concrete fixtures used in scenario and witness statements.  Day serials
use the spreadsheet epoch 1899-12-30: 46023 = 2026-01-01, 46030 = 2026-01-08,
46042 = 2026-01-20. -/

/-- A log with sets on 2026-01-01, 2026-01-08 and 2026-01-20 only
(the spec's Max-Gap scenario). -/
def logScenarioJan2026 : List LogRow :=
  [{ dateCell := .parsed 46023, exId := "e1", weightCell := 60,
     totalWeightCell := 60, repsCell := 8 },
   { dateCell := .parsed 46030, exId := "e1", weightCell := 60,
     totalWeightCell := 60, repsCell := 8 },
   { dateCell := .parsed 46042, exId := "e1", weightCell := 60,
     totalWeightCell := 60, repsCell := 8 }]

/-- A log with a single dated set (one session). -/
def logSingleSession : List LogRow :=
  [{ dateCell := .parsed 100, exId := "e1", weightCell := 50,
     totalWeightCell := 50, repsCell := 5 }]

/-- A log whose rows are all unusable: an unparseable (non-empty) date
token, a zero weight, and non-positive reps. -/
def logAllUnusable : List LogRow :=
  [{ dateCell := .unparsed, exId := "e1", weightCell := 50,
     totalWeightCell := 50, repsCell := 5 },
   { dateCell := .parsed 46023, exId := "e1", weightCell := 0,
     totalWeightCell := 0, repsCell := 5 },
   { dateCell := .parsed 46023, exId := "e1", weightCell := 60,
     totalWeightCell := 60, repsCell := 0 }]

/-- A well-formed dated row. -/
def rowGood : LogRow :=
  { dateCell := .parsed 46023, exId := "e1", weightCell := 60,
    totalWeightCell := 60, repsCell := 8 }

/-- A row whose extracted load is non-positive. -/
def rowBadWeight : LogRow :=
  { dateCell := .parsed 46030, exId := "e1", weightCell := -5,
    totalWeightCell := 0, repsCell := 8 }

/-- A row whose `Total_Weight` cell is `0` while the legacy `Weight` cell
holds `80`. -/
def rowTotalZero : LogRow :=
  { dateCell := .parsed 46023, exId := "e1", weightCell := 80,
    totalWeightCell := 0, repsCell := 8 }

/-- A one-exercise reference list. -/
def exListSquat : List Exercise :=
  [{ id := "e1", name := "Squat", equipmentType := "barbell",
     exerciseType := "compound" }]

/-- A PENDING proposal data row (BASELINE_PROPOSALS schema: exercise_id,
old_baseline, new_baseline, step, evidence, created_at, expires_at, status,
proposal_id). -/
def proposalRowPending : List String :=
  ["ex1", "100", "110", "2.5", "ev", "2026-01-01", "2026-01-15", "PENDING", "p1"]

/-- A proposal sheet with one PENDING proposal. -/
def proposalsSheetPending : Sheet :=
  [["exercise_id", "old_baseline", "new_baseline", "step", "evidence",
    "created_at", "expires_at", "status", "proposal_id"],
   proposalRowPending]

/-- A proposal sheet whose single proposal is already DECLINEd. -/
def proposalsSheetDeclined : Sheet :=
  [["exercise_id", "old_baseline", "new_baseline", "step", "evidence",
    "created_at", "expires_at", "status", "proposal_id"],
   ["ex1", "100", "110", "2.5", "ev", "2026-01-01", "2026-01-15", "DECLINE", "p1"]]

/-- A baseline sheet holding only its header row. -/
def baselineSheetHeaderOnly : Sheet :=
  [["exercise_id", "baseline_weight", "last_updated", "peak_90d", "status"]]

/-! Miscellaneous lemmas. -/

lemma optMax_none_right (a : Option ℚ) : optMax a none = a := by
  cases a <;> rfl

lemma optMax_assoc (a b c : Option ℚ) :
    optMax (optMax a b) c = optMax a (optMax b c) := by
  cases a <;> cases b <;> cases c <;> simp [optMax, max_assoc]

lemma listMaxQ_isSome_iff (l : List ℚ) : (listMaxQ l).isSome ↔ l ≠ [] := by
  cases l with
  | nil => simp [listMaxQ]
  | cons x xs =>
    simp only [listMaxQ]
    cases listMaxQ xs <;> simp [optMax]

lemma filterMap_congr_fun {α β : Type _} (l : List α) {f g : α → Option β}
    (h : ∀ a, f a = g a) : l.filterMap f = l.filterMap g := by
  have hfg : f = g := funext h
  rw [hfg]

lemma length_insertAscQ (x : ℚ) (l : List ℚ) :
    (insertAscQ x l).length = l.length + 1 := by
  induction l with
  | nil => rfl
  | cons y ys ih =>
    simp only [insertAscQ]
    split
    · simp
    · simp [ih]

lemma length_sortAscQ (l : List ℚ) : (sortAscQ l).length = l.length := by
  induction l with
  | nil => rfl
  | cons x xs ih =>
    simp only [sortAscQ, List.foldr] at ih ⊢
    rw [length_insertAscQ, ih, List.length_cons]

lemma largestConsecutiveGap_short {l : List Nat} (h : l.length < 2) :
    largestConsecutiveGap l = 0 := by
  match l with
  | [] => rfl
  | [x] => rfl
  | x :: y :: rest => simp at h; omega

lemma roundHalfEven_intCast (n : ℤ) : roundHalfEven (n : ℚ) = n := by
  unfold roundHalfEven
  rw [Int.floor_intCast]
  norm_num

lemma roundQ1_int_mul_step (z : ℤ) (step : ℚ) (hs : step = 5/2 ∨ step = 1) :
    roundQ1 ((z : ℚ) * step) = (z : ℚ) * step := by
  rcases hs with hs | hs <;> subst hs <;> unfold roundQ1
  · have h1 : (z : ℚ) * (5/2) * 10 = ((25 * z : ℤ) : ℚ) := by push_cast; ring
    rw [h1, roundHalfEven_intCast]
    push_cast; ring
  · have h1 : (z : ℚ) * 1 * 10 = ((10 * z : ℤ) : ℚ) := by push_cast; ring
    rw [h1, roundHalfEven_intCast]
    push_cast; ring

/-! Association-list lemmas for the `by_date` dict. -/

lemma alookup_aset (m : List (Nat × ℚ)) (d : Nat) (w : ℚ) (e : Nat) :
    alookup (aset m d w) e = if e = d then some w else alookup m e := by
  induction m with
  | nil =>
    simp only [aset, alookup]
    by_cases h : e = d
    · rw [if_pos h.symm, if_pos h]
    · rw [if_neg (fun hh => h hh.symm), if_neg h]
  | cons kv rest ih =>
    obtain ⟨k, v⟩ := kv
    simp only [aset]
    by_cases hk : k = d
    · rw [if_pos hk]
      simp only [alookup]
      by_cases he : k = e
      · rw [if_pos he, if_pos (he ▸ hk : e = d)]
      · rw [if_neg he]
        by_cases hed : e = d
        · exact absurd ((hk.trans hed.symm) : k = e) he
        · rw [if_neg hed, if_neg he]
    · rw [if_neg hk]
      simp only [alookup]
      by_cases he : k = e
      · rw [if_pos he, if_neg (fun hed : e = d => hk (he.trans hed)), if_pos he]
      · rw [if_neg he, ih]
        by_cases hed : e = d
        · rw [if_pos hed, if_pos hed]
        · rw [if_neg hed, if_neg hed, if_neg he]

lemma mem_keys_iff_alookup (m : List (Nat × ℚ)) (d : Nat) :
    d ∈ m.map Prod.fst ↔ (alookup m d).isSome := by
  induction m with
  | nil => simp [alookup]
  | cons kv rest ih =>
    obtain ⟨k, v⟩ := kv
    by_cases hk : k = d
    · simp [alookup, hk]
    · simp only [List.map_cons, List.mem_cons, alookup, if_neg hk]
      rw [← ih]
      constructor
      · rintro (h | h)
        · exact absurd h.symm hk
        · exact h
      · exact fun h => Or.inr h

lemma keys_aset_mem (m : List (Nat × ℚ)) (d : Nat) (w : ℚ) (a : Nat) :
    a ∈ (aset m d w).map Prod.fst ↔ a = d ∨ a ∈ m.map Prod.fst := by
  induction m with
  | nil => simp [aset]
  | cons kv rest ih =>
    obtain ⟨k, v⟩ := kv
    simp only [aset]
    by_cases hk : k = d
    · rw [if_pos hk]
      subst hk
      simp only [List.map_cons, List.mem_cons]
      tauto
    · rw [if_neg hk]
      simp only [List.map_cons, List.mem_cons, ih]
      tauto

lemma nodup_keys_aset (m : List (Nat × ℚ)) (d : Nat) (w : ℚ)
    (h : (m.map Prod.fst).Nodup) : ((aset m d w).map Prod.fst).Nodup := by
  induction m with
  | nil => simp [aset]
  | cons kv rest ih =>
    obtain ⟨k, v⟩ := kv
    simp only [List.map_cons, List.nodup_cons] at h
    simp only [aset]
    by_cases hk : k = d
    · rw [if_pos hk]
      simp only [List.map_cons, List.nodup_cons]
      exact h
    · rw [if_neg hk]
      simp only [List.map_cons, List.nodup_cons]
      refine ⟨?_, ih h.2⟩
      rw [keys_aset_mem]
      rintro (hh | hh)
      · exact hk hh
      · exact h.1 hh

/-! The `by_date` fold computes the per-day maximum qualifying weight. -/

lemma refDayBest_cons (rMin rMax : ℤ) (s : SetRec) (rest : List SetRec) (d : Nat) :
    refDayBest rMin rMax (s :: rest) d =
      if (qualifyingSet rMin rMax s && (s.date == some d)) = true then
        optMax (some s.weight) (refDayBest rMin rMax rest d)
      else refDayBest rMin rMax rest d := by
  unfold refDayBest
  rw [List.filter_cons]
  by_cases h : (qualifyingSet rMin rMax s && (s.date == some d)) = true
  · rw [if_pos h, if_pos h]
    rfl
  · rw [if_neg h, if_neg h]

lemma betterB_none (m : List (Nat × ℚ)) (d : Nat) (w : ℚ)
    (h : alookup m d = none) : betterB m d w = true := by
  unfold betterB
  rw [h]

lemma betterB_some (m : List (Nat × ℚ)) (d : Nat) (w old : ℚ)
    (h : alookup m d = some old) : betterB m d w = decide (old < w) := by
  unfold betterB
  rw [h]

lemma byDateStep_none (rMin rMax : ℤ) (m : List (Nat × ℚ)) (s : SetRec)
    (hdt : s.date = none) : byDateStep rMin rMax m s = m := by
  unfold byDateStep
  rw [hdt]

lemma byDateStep_some (rMin rMax : ℤ) (m : List (Nat × ℚ)) (s : SetRec)
    (d₀ : Nat) (hdt : s.date = some d₀) :
    byDateStep rMin rMax m s =
      if rMin ≤ s.reps ∧ s.reps ≤ rMax then
        if betterB m d₀ s.weight then
          if rirOkB s.rir || s.rir.isNone then aset m d₀ s.weight else m
        else m
      else m := by
  unfold byDateStep
  rw [hdt]

lemma byDateStep_lookup_other (rMin rMax : ℤ) (m : List (Nat × ℚ)) (s : SetRec)
    (e : Nat) (h : ¬ (qualifyingSet rMin rMax s = true ∧ s.date = some e)) :
    alookup (byDateStep rMin rMax m s) e = alookup m e := by
  rcases hdt : s.date with _ | d₀
  · rw [byDateStep_none rMin rMax m s hdt]
  · rw [byDateStep_some rMin rMax m s d₀ hdt]
    by_cases hreps : rMin ≤ s.reps ∧ s.reps ≤ rMax
    · rw [if_pos hreps]
      split
      · by_cases hrir : (rirOkB s.rir || s.rir.isNone) = true
        · have hr : rirOkB s.rir = true := by
            rcases hrr : s.rir with _ | r
            · rfl
            · rcases Bool.or_eq_true_iff.mp hrir with h1 | h2
              · rw [hrr] at h1; exact h1
              · rw [hrr] at h2; simp at h2
          have hq : qualifyingSet rMin rMax s = true := by
            unfold qualifyingSet
            rw [hdt]
            simp [hreps.1, hreps.2, hr]
          have hde : ¬ (e = d₀) := fun hh => h ⟨hq, by rw [hdt, hh]⟩
          rw [if_pos hrir, alookup_aset, if_neg hde]
        · rw [if_neg hrir]
      · rfl
    · rw [if_neg hreps]

lemma byDateStep_lookup_qual (rMin rMax : ℤ) (m : List (Nat × ℚ)) (s : SetRec)
    (e : Nat) (hq : qualifyingSet rMin rMax s = true) (hd : s.date = some e) :
    alookup (byDateStep rMin rMax m s) e = optMax (alookup m e) (some s.weight) := by
  have hparts := hq
  unfold qualifyingSet at hparts
  rw [hd] at hparts
  simp only [Option.isSome_some, Bool.true_and, Bool.and_eq_true,
    decide_eq_true_eq] at hparts
  obtain ⟨hreps, hrir⟩ := hparts
  have hguard : (rirOkB s.rir || s.rir.isNone) = true := by
    rw [hrir]; rfl
  rw [byDateStep_some rMin rMax m s e hd, if_pos hreps]
  rcases hm : alookup m e with _ | w
  · rw [if_pos (betterB_none m e s.weight hm), if_pos hguard, alookup_aset,
      if_pos rfl]
    rfl
  · by_cases hlt : w < s.weight
    · rw [if_pos (by rw [betterB_some m e s.weight w hm]; exact decide_eq_true hlt),
        if_pos hguard, alookup_aset, if_pos rfl]
      simp [optMax, max_eq_right (le_of_lt hlt)]
    · rw [if_neg (by rw [betterB_some m e s.weight w hm]; simp [hlt]), hm]
      simp [optMax, max_eq_left (le_of_not_lt hlt)]

lemma byDate_fold_lookup (rMin rMax : ℤ) (sets : List SetRec) :
    ∀ (m : List (Nat × ℚ)) (d : Nat),
      alookup (sets.foldl (byDateStep rMin rMax) m) d =
        optMax (alookup m d) (refDayBest rMin rMax sets d) := by
  induction sets with
  | nil =>
    intro m d
    simp only [List.foldl]
    rw [show refDayBest rMin rMax [] d = none from rfl, optMax_none_right]
  | cons s rest ih =>
    intro m d
    rw [List.foldl_cons, ih, refDayBest_cons]
    by_cases hC : (qualifyingSet rMin rMax s && (s.date == some d)) = true
    · rw [if_pos hC]
      rcases Bool.and_eq_true_iff.mp hC with ⟨hq, hbeq⟩
      have hd : s.date = some d := by
        rcases hdt : s.date with _ | d₀
        · rw [hdt] at hbeq; simp at hbeq
        · rw [hdt] at hbeq
          have hdd : d₀ = d := by simpa using hbeq
          rw [hdd]
      rw [byDateStep_lookup_qual rMin rMax m s d hq hd, optMax_assoc]
    · rw [if_neg hC]
      have hno : ¬ (qualifyingSet rMin rMax s = true ∧ s.date = some d) := by
        rintro ⟨hq, hd⟩
        apply hC
        rw [hq, hd]
        simp
      rw [byDateStep_lookup_other rMin rMax m s d hno]

lemma byDate_lookup_eq (rMin rMax : ℤ) (sets : List SetRec) (d : Nat) :
    alookup (sets.foldl (byDateStep rMin rMax) []) d = refDayBest rMin rMax sets d := by
  rw [byDate_fold_lookup]
  rfl

lemma byDate_fold_nodup (rMin rMax : ℤ) (sets : List SetRec) :
    ∀ (m : List (Nat × ℚ)), (m.map Prod.fst).Nodup →
      ((sets.foldl (byDateStep rMin rMax) m).map Prod.fst).Nodup := by
  induction sets with
  | nil => intro m h; exact h
  | cons s rest ih =>
    intro m h
    rw [List.foldl_cons]
    refine ih _ ?_
    rcases hdt : s.date with _ | d
    · rw [byDateStep_none rMin rMax m s hdt]
      exact h
    · rw [byDateStep_some rMin rMax m s d hdt]
      split
      · split
        · split
          · exact nodup_keys_aset _ _ _ h
          · exact h
        · exact h
      · exact h

/-! Sortedness lemmas: a strictly descending list is determined by its set
of elements, which lets the dict-key order of the source be compared with
the reference's day list. -/

lemma mem_insertDescNat {x a : Nat} {l : List Nat} :
    a ∈ insertDescNat x l ↔ a = x ∨ a ∈ l := by
  induction l with
  | nil => simp [insertDescNat]
  | cons y ys ih =>
    simp only [insertDescNat]
    split
    · simp [List.mem_cons]
    · simp only [List.mem_cons, ih]
      tauto

lemma mem_sortDescNat {a : Nat} {l : List Nat} :
    a ∈ sortDescNat l ↔ a ∈ l := by
  induction l with
  | nil => simp [sortDescNat]
  | cons y ys ih =>
    show a ∈ insertDescNat y (sortDescNat ys) ↔ _
    rw [mem_insertDescNat, ih, List.mem_cons]

lemma pairwise_insertDescNat {x : Nat} {l : List Nat}
    (h : l.Pairwise (fun a b => b ≤ a)) :
    (insertDescNat x l).Pairwise (fun a b => b ≤ a) := by
  induction l with
  | nil => simp [insertDescNat]
  | cons y ys ih =>
    rw [List.pairwise_cons] at h
    obtain ⟨hy, hys⟩ := h
    simp only [insertDescNat]
    by_cases hxy : y ≤ x
    · rw [if_pos hxy]
      refine List.Pairwise.cons ?_ (List.Pairwise.cons hy hys)
      intro b hb
      rcases List.mem_cons.mp hb with hb | hb
      · exact hb ▸ hxy
      · exact le_trans (hy b hb) hxy
    · rw [if_neg hxy]
      have hx : x ≤ y := le_of_not_le hxy
      refine List.Pairwise.cons ?_ (ih hys)
      intro b hb
      rcases mem_insertDescNat.mp hb with hb | hb
      · exact hb ▸ hx
      · exact hy b hb

lemma pairwise_sortDescNat (l : List Nat) :
    (sortDescNat l).Pairwise (fun a b => b ≤ a) := by
  induction l with
  | nil => simp [sortDescNat]
  | cons y ys ih =>
    show (insertDescNat y (sortDescNat ys)).Pairwise _
    exact pairwise_insertDescNat ih

lemma nodup_insertDescNat {x : Nat} {l : List Nat} (hx : x ∉ l) (h : l.Nodup) :
    (insertDescNat x l).Nodup := by
  induction l with
  | nil => simp [insertDescNat]
  | cons y ys ih =>
    rw [List.nodup_cons] at h
    simp only [insertDescNat]
    split
    · rw [List.nodup_cons, List.nodup_cons]
      exact ⟨hx, h.1, h.2⟩
    · rw [List.nodup_cons]
      have hxys : x ∉ ys := fun hh => hx (List.mem_cons_of_mem y hh)
      refine ⟨?_, ih hxys h.2⟩
      rw [mem_insertDescNat]
      rintro (hh | hh)
      · exact hx (by rw [← hh]; exact List.mem_cons_self y ys)
      · exact h.1 hh

lemma nodup_sortDescNat {l : List Nat} (h : l.Nodup) : (sortDescNat l).Nodup := by
  induction l with
  | nil => simp [sortDescNat]
  | cons y ys ih =>
    rw [List.nodup_cons] at h
    show (insertDescNat y (sortDescNat ys)).Nodup
    exact nodup_insertDescNat (fun hh => h.1 (mem_sortDescNat.mp hh)) (ih h.2)

lemma desc_nodup_ext : ∀ (l₁ l₂ : List Nat),
    l₁.Pairwise (fun a b => b ≤ a) → l₂.Pairwise (fun a b => b ≤ a) →
    l₁.Nodup → l₂.Nodup → (∀ a, a ∈ l₁ ↔ a ∈ l₂) → l₁ = l₂ := by
  intro l₁
  induction l₁ with
  | nil =>
    intro l₂ _ _ _ _ hm
    cases l₂ with
    | nil => rfl
    | cons b t₂ =>
      exact absurd ((hm b).mpr (List.mem_cons_self b t₂)) (List.not_mem_nil b)
  | cons a t₁ ih =>
    intro l₂ h₁ h₂ hn₁ hn₂ hm
    cases l₂ with
    | nil => exact absurd ((hm a).mp (List.mem_cons_self a t₁)) (List.not_mem_nil a)
    | cons b t₂ =>
      rw [List.pairwise_cons] at h₁ h₂
      rw [List.nodup_cons] at hn₁ hn₂
      have hab : a = b := by
        rcases List.mem_cons.mp ((hm a).mp (List.mem_cons_self a t₁)) with h | h
        · exact h
        · rcases List.mem_cons.mp ((hm b).mpr (List.mem_cons_self b t₂)) with h' | h'
          · exact h'.symm
          · exact le_antisymm (h₂.1 a h) (h₁.1 b h')
      subst hab
      have hmt : ∀ x, x ∈ t₁ ↔ x ∈ t₂ := by
        intro x
        constructor
        · intro hx
          rcases List.mem_cons.mp ((hm x).mp (List.mem_cons_of_mem a hx)) with h | h
          · exact absurd (h ▸ hx) hn₁.1
          · exact h
        · intro hx
          rcases List.mem_cons.mp ((hm x).mpr (List.mem_cons_of_mem a hx)) with h | h
          · exact absurd (h ▸ hx) hn₂.1
          · exact h
      rw [ih t₂ h₁.2 h₂.2 hn₁.2 hn₂.2 hmt]

lemma sortDescNat_ext {l₁ l₂ : List Nat} (h₁ : l₁.Nodup) (h₂ : l₂.Nodup)
    (hm : ∀ a, a ∈ l₁ ↔ a ∈ l₂) : sortDescNat l₁ = sortDescNat l₂ :=
  desc_nodup_ext _ _ (pairwise_sortDescNat l₁) (pairwise_sortDescNat l₂)
    (nodup_sortDescNat h₁) (nodup_sortDescNat h₂)
    (fun a => by rw [mem_sortDescNat, mem_sortDescNat]; exact hm a)

/-! The dict keys of the `by_date` fold coincide with the reference's day
set. -/

lemma refDayBest_isSome_iff (rMin rMax : ℤ) (sets : List SetRec) (d : Nat) :
    (refDayBest rMin rMax sets d).isSome ↔
      ∃ s ∈ sets, qualifyingSet rMin rMax s = true ∧ s.date = some d := by
  unfold refDayBest
  rw [listMaxQ_isSome_iff]
  constructor
  · intro h
    have hne : (sets.filter fun s =>
        qualifyingSet rMin rMax s && s.date == some d) ≠ [] := by
      intro hnil
      apply h
      rw [hnil, List.map_nil]
    rcases List.exists_mem_of_ne_nil _ hne with ⟨s, hs⟩
    rcases List.mem_filter.mp hs with ⟨hmem, hpred⟩
    rcases Bool.and_eq_true_iff.mp hpred with ⟨hq, hbeq⟩
    exact ⟨s, hmem, hq, eq_of_beq hbeq⟩
  · rintro ⟨s, hs, hq, hd⟩
    intro hnil
    rw [List.map_eq_nil_iff] at hnil
    have hmem : s ∈ sets.filter (fun s =>
        qualifyingSet rMin rMax s && s.date == some d) :=
      List.mem_filter.mpr ⟨hs, by rw [hq, hd]; simp⟩
    rw [hnil] at hmem
    exact List.not_mem_nil s hmem

lemma byDate_keys_iff (rMin rMax : ℤ) (sets : List SetRec) (d : Nat) :
    d ∈ ((sets.foldl (byDateStep rMin rMax) []).map Prod.fst) ↔
      d ∈ ((sets.filter (qualifyingSet rMin rMax)).filterMap
        (fun s => s.date)).dedup := by
  rw [mem_keys_iff_alookup, byDate_lookup_eq, List.mem_dedup, List.mem_filterMap,
    refDayBest_isSome_iff]
  constructor
  · rintro ⟨s, hs, hq, hd⟩
    exact ⟨s, List.mem_filter.mpr ⟨hs, hq⟩, hd⟩
  · rintro ⟨s, hs, hd⟩
    rcases List.mem_filter.mp hs with ⟨hmem, hq⟩
    exact ⟨s, hmem, hq, hd⟩

/-! Lemmas about the row-to-set conversion and the raw-sheet operations. -/

lemma buildSetFromRow_none_of_bad {exs : List Exercise} {r : LogRow}
    (h : get_weight_from_row r.weightCell r.totalWeightCell ≤ 0 ∨ r.repsCell ≤ 0) :
    buildSetFromRow exs r = none := by
  cases hdc : r.dateCell with
  | empty => simp [buildSetFromRow, hdc]
  | unparsed => simp [buildSetFromRow, hdc, if_pos h]
  | parsed d => simp [buildSetFromRow, hdc, if_pos h]

lemma buildSetFromRow_some_date {exs : List Exercise} {r : LogRow} {s : SetRec}
    (hs : buildSetFromRow exs r = some s) (hp : r.dateCell.isParsed = false) :
    s.date = none := by
  cases hdc : r.dateCell with
  | empty => simp [buildSetFromRow, hdc] at hs
  | unparsed =>
    simp only [buildSetFromRow, hdc] at hs
    split at hs
    · exact Option.noConfusion hs
    · cases hs
      rfl
  | parsed d => rw [hdc] at hp; simp [DateCell.isParsed] at hp

lemma trainingDays_nil_of_all_none {exs : List Exercise} {rows : List LogRow}
    (h : ∀ s ∈ buildAllSets exs rows, s.date = none) :
    trainingDays exs rows = [] := by
  unfold trainingDays
  rw [List.dedup_eq_nil, List.filterMap_eq_nil_iff]
  intro s hs
  exact h s hs

lemma refActualSessions_zero_of_no_dates {exs : List Exercise}
    {rows : List LogRow} (period : ℤ) (now : ℚ)
    (h : ∀ s ∈ buildAllSets exs rows, s.date = none) :
    refActualSessions exs rows period now = 0 := by
  unfold refActualSessions
  have hfil : (buildAllSets exs rows).filter (fun s =>
      match s.date with
      | some d => decide (now - (period : ℚ) ≤ (d : ℚ))
      | none => false) = [] := by
    rw [List.filter_eq_nil_iff]
    intro s hs
    rw [h s hs]
    simp
  rw [hfil]
  rfl

lemma roundQ2_zero : roundQ2 0 = 0 := by
  unfold roundQ2 roundHalfEven
  norm_num

lemma target_pos (period : ℤ) : (0 : ℤ) < max 1 (truncQ ((period : ℚ) / 7 * 3)) :=
  lt_of_lt_of_le zero_lt_one (le_max_left 1 _)

lemma truncQ_intCast (t : ℤ) (ht : 0 ≤ t) : truncQ ((t : ℤ) : ℚ) = t := by
  unfold truncQ
  rw [if_pos (by exact_mod_cast ht), Int.floor_intCast]

lemma target_eq_of_period (period t : ℤ) (ht : 1 ≤ t)
    (heq : (period : ℚ) / 7 * 3 = (t : ℚ)) :
    max 1 (truncQ ((period : ℚ) / 7 * 3)) = t := by
  rw [heq, truncQ_intCast t (by omega)]
  omega

lemma target_eq_ceil (period : ℤ)
    (hp : period = 7 ∨ period = 14 ∨ period = 21 ∨ period = 28) :
    max 1 (truncQ ((period : ℚ) / 7 * 3)) = ⌈(period : ℚ) / 7 * 3⌉ := by
  rcases hp with h | h | h | h <;> subst h
  · rw [target_eq_of_period 7 3 (by norm_num) (by norm_num)]
    norm_num
  · rw [target_eq_of_period 14 6 (by norm_num) (by norm_num)]
    norm_num
  · rw [target_eq_of_period 21 9 (by norm_num) (by norm_num)]
    norm_num
  · rw [target_eq_of_period 28 12 (by norm_num) (by norm_num)]
    norm_num

lemma setCell_ne_nil (row : List String) (c : Nat) (v : String) :
    setCell row c v ≠ [] := by
  cases row <;> cases c <;> simp [setCell]

lemma getD_setCell_self (row : List String) (c : Nat) (v : String) :
    (setCell row c v).getD c "" = v := by
  induction c generalizing row with
  | zero => cases row <;> rfl
  | succ n ih =>
    cases row with
    | nil =>
      show (("" :: setCell [] n v).getD (n + 1) "") = v
      rw [List.getD_cons_succ]
      exact ih []
    | cons a rest =>
      show ((a :: setCell rest n v).getD (n + 1) "") = v
      rw [List.getD_cons_succ]
      exact ih rest

lemma getD_setCell_ne (row : List String) (c : Nat) (v : String) (j : Nat)
    (h : j ≠ c) : (setCell row c v).getD j "" = row.getD j "" := by
  induction c generalizing row j with
  | zero =>
    cases row with
    | nil =>
      cases j with
      | zero => exact absurd rfl h
      | succ m => simp [setCell]
    | cons a rest =>
      cases j with
      | zero => exact absurd rfl h
      | succ m => simp [setCell]
  | succ n ih =>
    cases row with
    | nil =>
      cases j with
      | zero => rfl
      | succ m =>
        show ((setCell [] n v).getD m "") = (([] : List String).getD (m + 1) "")
        rw [ih [] m (fun hh => h (by omega))]
        rfl
    | cons a rest =>
      cases j with
      | zero => rfl
      | succ m =>
        show ((setCell rest n v).getD m "") = rest.getD m ""
        exact ih rest m (fun hh => h (by omega))

lemma length_updateProposalRows (rows : List (List String)) (pid action : String) :
    (updateProposalRows rows pid action).length = rows.length := by
  induction rows with
  | nil => rfl
  | cons row rest ih =>
    simp only [updateProposalRows]
    split
    · simp
    · simp [ih]

lemma updateProposalRows_frame (rows : List (List String)) (pid action : String) :
    ∀ i j, j ≠ 7 →
      (((updateProposalRows rows pid action).getD i []).getD j "") =
        ((rows.getD i []).getD j "") := by
  induction rows with
  | nil => intro i j _; rfl
  | cons row rest ih =>
    intro i j h
    simp only [updateProposalRows]
    split
    · cases i with
      | zero =>
        rw [List.getD_cons_zero, List.getD_cons_zero]
        exact getD_setCell_ne row 7 action j h
      | succ m => rw [List.getD_cons_succ, List.getD_cons_succ]
    · cases i with
      | zero => rfl
      | succ m =>
        rw [List.getD_cons_succ, List.getD_cons_succ]
        exact ih m j h

lemma lookupBaselineRows_applyConfirmRows (rows : List (List String))
    (exId nb today : String) :
    lookupBaselineRows (applyConfirmRows rows exId nb today) exId =
      some (nb, "updated") := by
  induction rows with
  | nil =>
    show lookupBaselineRows [[exId, nb, today, "", "updated"]] exId = _
    simp only [lookupBaselineRows]
    rw [if_pos ⟨List.cons_ne_nil _ _, rfl⟩]
    rfl
  | cons row rest ih =>
    simp only [applyConfirmRows]
    split
    · rename_i hmatch
      simp only [lookupBaselineRows]
      have hcond : setCell (setCell (setCell row 1 nb) 2 today) 4 "updated" ≠ [] ∧
          (setCell (setCell (setCell row 1 nb) 2 today) 4 "updated").getD 0 "" = exId := by
        refine ⟨setCell_ne_nil _ _ _, ?_⟩
        rw [getD_setCell_ne (setCell (setCell row 1 nb) 2 today) 4 "updated" 0 (by omega),
          getD_setCell_ne (setCell row 1 nb) 2 today 0 (by omega),
          getD_setCell_ne row 1 nb 0 (by omega)]
        exact hmatch.2
      rw [if_pos hcond,
        getD_setCell_ne (setCell (setCell row 1 nb) 2 today) 4 "updated" 1 (by omega),
        getD_setCell_ne (setCell row 1 nb) 2 today 1 (by omega),
        getD_setCell_self (setCell (setCell row 1 nb) 2 today) 4 "updated",
        getD_setCell_self row 1 nb]
    · rename_i hmatch
      simp only [lookupBaselineRows]
      rw [if_neg hmatch]
      exact ih

lemma lookupBaselineCells_applyConfirmBaseline (bs : Sheet)
    (exId nb today : String) (h : 1 ≤ bs.length) :
    lookupBaselineCells (applyConfirmBaseline bs exId nb today) exId =
      some (nb, "updated") := by
  cases bs with
  | nil => simp at h
  | cons hdr rest =>
    show lookupBaselineRows (applyConfirmRows rest exId nb today) exId = _
    exact lookupBaselineRows_applyConfirmRows rest exId nb today

lemma findIdxRows_of_findProposalRow :
    ∀ {rows : List (List String)} {pid : String} {row : List String},
      findProposalRow rows pid = some row → ∃ m, findIdxRows rows pid = some m := by
  intro rows
  induction rows with
  | nil => intro pid row h; exact Option.noConfusion h
  | cons r rest ih =>
    intro pid row h
    simp only [findProposalRow] at h
    by_cases hc : 8 < r.length ∧ r.getD 8 "" = pid
    · refine ⟨0, ?_⟩
      simp only [findIdxRows]
      rw [if_pos hc]
    · rw [if_neg hc] at h
      obtain ⟨m, hm⟩ := ih h
      refine ⟨m + 1, ?_⟩
      simp only [findIdxRows]
      rw [if_neg hc, hm]
      rfl

lemma updateProposalRows_cell_other :
    ∀ (rows : List (List String)) (pid action : String) (m : Nat),
      findIdxRows rows pid = some m →
      ∀ i j, ¬ (i = m ∧ j = 7) →
        (((updateProposalRows rows pid action).getD i []).getD j "") =
          ((rows.getD i []).getD j "") := by
  intro rows
  induction rows with
  | nil => intro pid action m hm; exact Option.noConfusion hm
  | cons r rest ih =>
    intro pid action m hm i j hij
    simp only [findIdxRows] at hm
    simp only [updateProposalRows]
    by_cases hc : 8 < r.length ∧ r.getD 8 "" = pid
    · rw [if_pos hc] at hm
      rw [if_pos hc]
      have hm0 : m = 0 := (Option.some.inj hm).symm
      subst hm0
      cases i with
      | zero =>
        have hj : ¬ (j = 7) := fun hh => hij ⟨rfl, hh⟩
        rw [List.getD_cons_zero, List.getD_cons_zero]
        exact getD_setCell_ne r 7 action j hj
      | succ m => rw [List.getD_cons_succ, List.getD_cons_succ]
    · rw [if_neg hc] at hm
      rw [if_neg hc]
      rcases hmap : findIdxRows rest pid with _ | k
      · rw [hmap] at hm
        simp at hm
      · rw [hmap] at hm
        have hmk : m = k + 1 := by simpa using hm.symm
        subst hmk
        cases i with
        | zero => rfl
        | succ n =>
          rw [List.getD_cons_succ, List.getD_cons_succ]
          refine ih pid action k hmap n j ?_
          rintro ⟨h1, h2⟩
          exact hij ⟨by rw [h1], h2⟩

lemma updateProposalRows_cell_status :
    ∀ (rows : List (List String)) (pid action : String) (m : Nat),
      findIdxRows rows pid = some m →
      (((updateProposalRows rows pid action).getD m []).getD 7 "") = action := by
  intro rows
  induction rows with
  | nil => intro pid action m hm; exact Option.noConfusion hm
  | cons r rest ih =>
    intro pid action m hm
    simp only [findIdxRows] at hm
    simp only [updateProposalRows]
    by_cases hc : 8 < r.length ∧ r.getD 8 "" = pid
    · rw [if_pos hc] at hm
      rw [if_pos hc]
      have hm0 : m = 0 := (Option.some.inj hm).symm
      subst hm0
      rw [List.getD_cons_zero]
      exact getD_setCell_self r 7 action
    · rw [if_neg hc] at hm
      rw [if_neg hc]
      rcases hmap : findIdxRows rest pid with _ | k
      · rw [hmap] at hm
        simp at hm
      · rw [hmap] at hm
        have hmk : m = k + 1 := by simpa using hm.symm
        subst hmk
        rw [List.getD_cons_succ]
        exact ih pid action k hmap

lemma findProposalRow_of_short {ps : Sheet} {pid : String} (h : ps.length < 2) :
    findProposalRow (ps.drop 1) pid = none := by
  have hdrop : ps.drop 1 = [] := List.drop_eq_nil_iff.mpr (by omega)
  rw [hdrop]
  rfl

lemma confirm_short (ps bs : Sheet) (pid action today : String)
    (hlen : ps.length < 2) :
    confirm_baseline_proposal ps bs pid action today =
      { result := { success := false, error := some "No proposals", action := none }
        proposalsSheet := ps, baselineSheet := bs } := by
  unfold confirm_baseline_proposal
  rw [if_pos hlen]

lemma confirm_notfound (ps bs : Sheet) (pid action today : String)
    (hnone : findProposalRow (ps.drop 1) pid = none) (hlen : ¬ ps.length < 2) :
    confirm_baseline_proposal ps bs pid action today =
      { result := { success := false, error := some "Proposal not found", action := none }
        proposalsSheet := ps, baselineSheet := bs } := by
  unfold confirm_baseline_proposal
  rw [if_neg hlen, hnone]

lemma confirm_found (ps bs : Sheet) (pid action today : String)
    (row : List String) (hf : findProposalRow (ps.drop 1) pid = some row)
    (hlen : ¬ ps.length < 2) :
    confirm_baseline_proposal ps bs pid action today =
      (if action = "CONFIRM" then
        { result := { success := true, error := none, action := some action }
          proposalsSheet :=
            match ps with
            | [] => []
            | hdr :: rest => hdr :: updateProposalRows rest pid action
          baselineSheet :=
            applyConfirmBaseline bs (row.getD 0 "") (row.getD 2 "") today }
      else
        { result := { success := true, error := none, action := some action }
          proposalsSheet :=
            match ps with
            | [] => []
            | hdr :: rest => hdr :: updateProposalRows rest pid action
          baselineSheet := bs }) := by
  unfold confirm_baseline_proposal
  rw [if_neg hlen, hf]
  cases ps with
  | nil => rfl
  | cons hdr rest => rfl

/-! Field-level characterizations of the analytics response, each proved by
walking the three empty-result branches and the main branch of
`get_analytics_v4`. -/

lemma analytics_eq_empty_of_rows {rows : List LogRow} {exs : List Exercise}
    {bls : List (String × StoredBaseline)} {props : List ProposalOut}
    {period : ℤ} {now : ℚ} (h : rows.isEmpty = true) :
    get_analytics_v4 rows exs bls props period now = empty_analytics_v4 period := by
  unfold get_analytics_v4
  rw [if_pos h]

lemma analytics_eq_empty_of_sets {rows : List LogRow} {exs : List Exercise}
    {bls : List (String × StoredBaseline)} {props : List ProposalOut}
    {period : ℤ} {now : ℚ} (h : (buildAllSets exs rows).isEmpty = true) :
    get_analytics_v4 rows exs bls props period now = empty_analytics_v4 period := by
  unfold get_analytics_v4
  split
  · rfl
  · unfold analyticsFromSets
    rw [if_pos h]

lemma analytics_eq_empty_of_nodate {rows : List LogRow} {exs : List Exercise}
    {bls : List (String × StoredBaseline)} {props : List ProposalOut}
    {period : ℤ} {now : ℚ}
    (h : (buildAllSets exs rows).any (fun s => s.date.isSome) = false) :
    get_analytics_v4 rows exs bls props period now = empty_analytics_v4 period := by
  unfold get_analytics_v4
  split
  · rfl
  · unfold analyticsFromSets
    split
    · rfl
    · rw [if_pos (by simp [h])]

lemma no_dates_of_any_false {rows : List LogRow} {exs : List Exercise}
    (h : (buildAllSets exs rows).any (fun s => s.date.isSome) = false) :
    ∀ s ∈ buildAllSets exs rows, s.date = none := by
  intro s hs
  exact Option.not_isSome_iff_eq_none.mp (by simpa using List.any_eq_false.mp h s hs)

lemma analytics_maxGap_value (rows : List LogRow) (exs : List Exercise)
    (bls : List (String × StoredBaseline)) (props : List ProposalOut)
    (period : ℤ) (now : ℚ) :
    (get_analytics_v4 rows exs bls props period now).maxGap.value =
      largestConsecutiveGap (sortAscNat (trainingDays exs rows)) := by
  by_cases h1 : rows.isEmpty
  · rw [analytics_eq_empty_of_rows h1, List.isEmpty_iff.mp h1]
    rfl
  · by_cases h2 : (buildAllSets exs rows).isEmpty
    · rw [analytics_eq_empty_of_sets h2]
      unfold trainingDays
      rw [List.isEmpty_iff.mp h2]
      rfl
    · by_cases h3 : (buildAllSets exs rows).any (fun s => s.date.isSome)
      · unfold get_analytics_v4
        rw [if_neg h1]
        unfold analyticsFromSets
        rw [if_neg h2, if_neg (not_not_intro h3)]
        dsimp only []
        unfold trainingDays
        by_cases hlen : 2 ≤
            (sortAscNat (((buildAllSets exs rows).filterMap (fun s => s.date)).dedup)).length
        · rw [if_pos hlen]
        · rw [if_neg hlen, largestConsecutiveGap_short (by omega)]
      · have hfalse : (buildAllSets exs rows).any (fun s => s.date.isSome) = false :=
          Bool.eq_false_iff.mpr h3
        rw [analytics_eq_empty_of_nodate hfalse,
          trainingDays_nil_of_all_none (no_dates_of_any_false hfalse)]
        rfl

lemma analytics_maxGap_status (rows : List LogRow) (exs : List Exercise)
    (bls : List (String × StoredBaseline)) (props : List ProposalOut)
    (period : ℤ) (now : ℚ) :
    (get_analytics_v4 rows exs bls props period now).maxGap.status =
      (if (get_analytics_v4 rows exs bls props period now).maxGap.value ≤ 4 then "ok"
       else if (get_analytics_v4 rows exs bls props period now).maxGap.value ≤ 7 then "warning"
       else "vkat") := by
  by_cases h1 : rows.isEmpty
  · rw [analytics_eq_empty_of_rows h1]
    rfl
  · by_cases h2 : (buildAllSets exs rows).isEmpty
    · rw [analytics_eq_empty_of_sets h2]
      rfl
    · by_cases h3 : (buildAllSets exs rows).any (fun s => s.date.isSome)
      · unfold get_analytics_v4
        rw [if_neg h1]
        unfold analyticsFromSets
        rw [if_neg h2, if_neg (not_not_intro h3)]
      · rw [analytics_eq_empty_of_nodate (Bool.eq_false_iff.mpr h3)]
        rfl

lemma analytics_mode (rows : List LogRow) (exs : List Exercise)
    (bls : List (String × StoredBaseline)) (props : List ProposalOut)
    (period : ℤ) (now : ℚ) :
    (get_analytics_v4 rows exs bls props period now).mode =
      (if 7 < (get_analytics_v4 rows exs bls props period now).maxGap.value then "Вкат"
       else if (get_analytics_v4 rows exs bls props period now).frequencyScore.value < (3:ℚ)/5
         then "Поддержание"
       else "Стабильный") := by
  by_cases h1 : rows.isEmpty
  · rw [analytics_eq_empty_of_rows h1]
    norm_num [empty_analytics_v4]
  · by_cases h2 : (buildAllSets exs rows).isEmpty
    · rw [analytics_eq_empty_of_sets h2]
      norm_num [empty_analytics_v4]
    · by_cases h3 : (buildAllSets exs rows).any (fun s => s.date.isSome)
      · unfold get_analytics_v4
        rw [if_neg h1]
        unfold analyticsFromSets
        rw [if_neg h2, if_neg (not_not_intro h3)]
      · rw [analytics_eq_empty_of_nodate (Bool.eq_false_iff.mpr h3)]
        norm_num [empty_analytics_v4]

lemma analytics_fs_target (rows : List LogRow) (exs : List Exercise)
    (bls : List (String × StoredBaseline)) (props : List ProposalOut)
    (period : ℤ) (now : ℚ) :
    (get_analytics_v4 rows exs bls props period now).frequencyScore.target =
      max 1 (truncQ ((period : ℚ) / 7 * 3)) := by
  by_cases h1 : rows.isEmpty
  · rw [analytics_eq_empty_of_rows h1]
    rfl
  · by_cases h2 : (buildAllSets exs rows).isEmpty
    · rw [analytics_eq_empty_of_sets h2]
      rfl
    · by_cases h3 : (buildAllSets exs rows).any (fun s => s.date.isSome)
      · unfold get_analytics_v4
        rw [if_neg h1]
        unfold analyticsFromSets
        rw [if_neg h2, if_neg (not_not_intro h3)]
      · rw [analytics_eq_empty_of_nodate (Bool.eq_false_iff.mpr h3)]
        rfl

lemma analytics_fs_actual (rows : List LogRow) (exs : List Exercise)
    (bls : List (String × StoredBaseline)) (props : List ProposalOut)
    (period : ℤ) (now : ℚ) :
    (get_analytics_v4 rows exs bls props period now).frequencyScore.actual =
      refActualSessions exs rows period now := by
  by_cases h1 : rows.isEmpty
  · rw [analytics_eq_empty_of_rows h1]
    unfold refActualSessions
    rw [List.isEmpty_iff.mp h1]
    rfl
  · by_cases h2 : (buildAllSets exs rows).isEmpty
    · rw [analytics_eq_empty_of_sets h2]
      unfold refActualSessions
      rw [List.isEmpty_iff.mp h2]
      rfl
    · by_cases h3 : (buildAllSets exs rows).any (fun s => s.date.isSome)
      · unfold get_analytics_v4
        rw [if_neg h1]
        unfold analyticsFromSets
        rw [if_neg h2, if_neg (not_not_intro h3)]
        unfold refActualSessions
        rfl
      · have hfalse : (buildAllSets exs rows).any (fun s => s.date.isSome) = false :=
          Bool.eq_false_iff.mpr h3
        rw [analytics_eq_empty_of_nodate hfalse,
          refActualSessions_zero_of_no_dates period now (no_dates_of_any_false hfalse)]
        rfl

lemma analytics_fs_value (rows : List LogRow) (exs : List Exercise)
    (bls : List (String × StoredBaseline)) (props : List ProposalOut)
    (period : ℤ) (now : ℚ) :
    (get_analytics_v4 rows exs bls props period now).frequencyScore.value =
      roundQ2 (((get_analytics_v4 rows exs bls props period now).frequencyScore.actual : ℚ) /
        ((get_analytics_v4 rows exs bls props period now).frequencyScore.target : ℚ)) := by
  by_cases h1 : rows.isEmpty
  · rw [analytics_eq_empty_of_rows h1]
    norm_num [empty_analytics_v4, roundQ2_zero]
  · by_cases h2 : (buildAllSets exs rows).isEmpty
    · rw [analytics_eq_empty_of_sets h2]
      norm_num [empty_analytics_v4, roundQ2_zero]
    · by_cases h3 : (buildAllSets exs rows).any (fun s => s.date.isSome)
      · unfold get_analytics_v4
        rw [if_neg h1]
        unfold analyticsFromSets
        rw [if_neg h2, if_neg (not_not_intro h3)]
        dsimp only []
        rw [if_pos (target_pos period)]
      · rw [analytics_eq_empty_of_nodate (Bool.eq_false_iff.mpr h3)]
        norm_num [empty_analytics_v4, roundQ2_zero]

lemma analytics_fs_status (rows : List LogRow) (exs : List Exercise)
    (bls : List (String × StoredBaseline)) (props : List ProposalOut)
    (period : ℤ) (now : ℚ) :
    (get_analytics_v4 rows exs bls props period now).frequencyScore.status =
      (if (4:ℚ)/5 ≤ (get_analytics_v4 rows exs bls props period now).frequencyScore.value
        then "green"
       else if (3:ℚ)/5 ≤ (get_analytics_v4 rows exs bls props period now).frequencyScore.value
        then "yellow"
       else "red") := by
  by_cases h1 : rows.isEmpty
  · rw [analytics_eq_empty_of_rows h1]
    norm_num [empty_analytics_v4]
  · by_cases h2 : (buildAllSets exs rows).isEmpty
    · rw [analytics_eq_empty_of_sets h2]
      norm_num [empty_analytics_v4]
    · by_cases h3 : (buildAllSets exs rows).any (fun s => s.date.isSome)
      · unfold get_analytics_v4
        rw [if_neg h1]
        unfold analyticsFromSets
        rw [if_neg h2, if_neg (not_not_intro h3)]
      · rw [analytics_eq_empty_of_nodate (Bool.eq_false_iff.mpr h3)]
        norm_num [empty_analytics_v4]

/-! Claim theorems. -/

/-- C2: for every exercise and every set history, the candidate baseline
computed by `_calc_baseline_for_exercise` equals the reference definition
from the specification: per training day keep the highest-load set whose
reps lie in the exercise-type rep band (6–12 compound, 8–15 isolation) and
whose effort rating, when present, lies in 1–3; restrict to the last 8 such
days; return no baseline below 4 candidates; otherwise drop the single
highest candidate (the top `⌈n/10⌉` when `n ≥ 10`) and return the median of
the rest rounded to the equipment step (2.5 kg barbell, 1 kg otherwise). -/
theorem C2_baseline_refinement (ex_id : String) (ex : Exercise)
    (all_sets : List SetRec) :
    calc_baseline_for_exercise ex_id ex all_sets =
      refCandidateBaseline ex_id ex all_sets := by
  unfold calc_baseline_for_exercise refCandidateBaseline
  simp only []
  by_cases hemp : (all_sets.filter (fun s => s.exId = ex_id)).isEmpty
  · rw [if_pos hemp, List.isEmpty_iff.mp hemp]
    rfl
  · rw [if_neg hemp]
    set S := all_sets.filter (fun s => s.exId = ex_id) with hS
    set B := (if ex.exerciseType = "compound" then ((6:ℤ), (12:ℤ))
      else ((8:ℤ), (15:ℤ))) with hB
    have hkeys : sortDescNat ((S.foldl (byDateStep B.1 B.2) []).map Prod.fst) =
        refCandidateDays B.1 B.2 S := by
      unfold refCandidateDays
      exact sortDescNat_ext
        (byDate_fold_nodup B.1 B.2 S [] (by simp))
        (List.nodup_dedup _)
        (fun a => byDate_keys_iff B.1 B.2 S a)
    have hcands :
        ((sortDescNat ((S.foldl (byDateStep B.1 B.2) []).map Prod.fst)).take 8).filterMap
            (alookup (S.foldl (byDateStep B.1 B.2) [])) =
          ((refCandidateDays B.1 B.2 S).take 8).filterMap (refDayBest B.1 B.2 S) := by
      rw [hkeys]
      exact filterMap_congr_fun _ (fun d => byDate_lookup_eq B.1 B.2 S d)
    rw [hcands]
    set C := ((refCandidateDays B.1 B.2 S).take 8).filterMap (refDayBest B.1 B.2 S)
      with hC
    have hlen8 : C.length ≤ 8 := by
      rw [hC]
      exact le_trans (List.length_filterMap_le _ _)
        (by rw [List.length_take]; exact min_le_left _ _)
    by_cases h4 : C.length < 4
    · rw [if_pos h4, if_pos h4]
    · rw [if_neg h4, if_neg h4]
      have h10 : ¬ (10 ≤ C.length) := by omega
      rw [if_neg h10, if_neg h10, if_pos (by omega : 4 ≤ C.length)]
      have hne : ¬ (((sortAscQ C).dropLast).isEmpty = true) := by
        rw [List.isEmpty_iff_length_eq_zero, List.length_dropLast, length_sortAscQ]
        omega
      rw [if_neg hne]
      by_cases hbar : ex.equipmentType = "barbell"
      · rw [if_pos hbar, roundQ1_int_mul_step _ _ (Or.inl rfl)]
      · rw [if_neg hbar, roundQ1_int_mul_step _ _ (Or.inr rfl)]

/-- C1 (counterexample): the key set of the `get_analytics_v4` response
dictionary contains none of the five Metric Engine indicators (Strength
Trend, Stimulus Volume, Fatigue Accumulation, Efficiency Index,
Consistency); it holds exactly mode, frequencyScore, maxGap,
returnToBaseline, stabilityGate, baselines, proposals and meta. -/
theorem C1_counterexample :
    analyticsV4ResponseKeys =
      ["mode", "frequencyScore", "maxGap", "returnToBaseline", "stabilityGate",
       "baselines", "proposals", "meta"] ∧
    "strengthTrend" ∉ analyticsV4ResponseKeys ∧
    "stimulusVolume" ∉ analyticsV4ResponseKeys ∧
    "fatigueAccumulation" ∉ analyticsV4ResponseKeys ∧
    "efficiencyIndex" ∉ analyticsV4ResponseKeys ∧
    "consistency" ∉ analyticsV4ResponseKeys := by
  refine ⟨rfl, ?_, ?_, ?_, ?_, ?_⟩ <;> decide

/-- C1 (amended): every analytics response carries Frequency Score and
Max Gap with statuses drawn from their documented enumerations, a Mode from
its three documented values, the request period, and — whenever any usable
dated set exists — one Baseline entry per exercise and the pending
Proposals list; the five Metric Engine indicators are absent (see the
counterexample). -/
theorem C1_response_components (rows : List LogRow) (exs : List Exercise)
    (bls : List (String × StoredBaseline)) (props : List ProposalOut)
    (period : ℤ) (now : ℚ) :
    (get_analytics_v4 rows exs bls props period now).frequencyScore.status ∈
      (["green", "yellow", "red"] : List String) ∧
    (get_analytics_v4 rows exs bls props period now).maxGap.status ∈
      (["ok", "warning", "vkat"] : List String) ∧
    (get_analytics_v4 rows exs bls props period now).mode ∈
      (["Вкат", "Поддержание", "Стабильный"] : List String) ∧
    (get_analytics_v4 rows exs bls props period now).metaPeriod = period ∧
    ((buildAllSets exs rows).any (fun s => s.date.isSome) = true →
      (get_analytics_v4 rows exs bls props period now).baselines.map
          (fun b => b.exerciseId) = exs.map (fun e => e.id) ∧
      (get_analytics_v4 rows exs bls props period now).proposals = props) := by
  refine ⟨?_, ?_, ?_, ?_, ?_⟩
  · rw [analytics_fs_status rows exs bls props period now]
    split
    · simp
    · split
      · simp
      · simp
  · rw [analytics_maxGap_status rows exs bls props period now]
    split
    · simp
    · split
      · simp
      · simp
  · rw [analytics_mode rows exs bls props period now]
    split
    · simp
    · split
      · simp
      · simp
  · by_cases h1 : rows.isEmpty
    · rw [analytics_eq_empty_of_rows h1]
      rfl
    · by_cases h2 : (buildAllSets exs rows).isEmpty
      · rw [analytics_eq_empty_of_sets h2]
        rfl
      · by_cases h3 : (buildAllSets exs rows).any (fun s => s.date.isSome)
        · unfold get_analytics_v4
          rw [if_neg h1]
          unfold analyticsFromSets
          rw [if_neg h2, if_neg (not_not_intro h3)]
        · rw [analytics_eq_empty_of_nodate (Bool.eq_false_iff.mpr h3)]
          rfl
  · intro hany
    by_cases h1 : rows.isEmpty
    · rw [List.isEmpty_iff.mp h1] at hany
      simp [buildAllSets] at hany
    · by_cases h2 : (buildAllSets exs rows).isEmpty
      · rw [List.isEmpty_iff.mp h2] at hany
        simp at hany
      · unfold get_analytics_v4
        rw [if_neg h1]
        unfold analyticsFromSets
        rw [if_neg h2, if_neg (not_not_intro hany)]
        constructor
        · dsimp only []
          rw [List.map_map]
          rfl
        · rfl

/-- C1 (witness): at a concrete log and one-exercise reference list, the
response carries one baseline entry for the exercise and the (empty)
pending-proposals list. -/
theorem C1_witness :
    (get_analytics_v4 logScenarioJan2026 exListSquat [] [] 14 46043).baselines.map
      (fun b => b.exerciseId) = exListSquat.map (fun e => e.id) ∧
    (get_analytics_v4 logScenarioJan2026 exListSquat [] [] 14 46043).proposals = [] :=
  (C1_response_components logScenarioJan2026 exListSquat [] [] 14 46043).2.2.2.2
    (by decide)

/-- C5: the Max Gap of every analytics response equals the largest gap in
days between consecutive distinct training dates of the entire parsed
history, with status ok (≤ 4), warning (≤ 7) or the return-band "vkat"
(> 7); in particular the log with sets on 2026-01-01, 2026-01-08 and
2026-01-20 only yields value 12, status "vkat" and the Return mode
("Вкат"). -/
theorem C5_max_gap :
    (∀ (rows : List LogRow) (exs : List Exercise)
        (bls : List (String × StoredBaseline)) (props : List ProposalOut)
        (period : ℤ) (now : ℚ),
      (get_analytics_v4 rows exs bls props period now).maxGap.value =
        largestConsecutiveGap (sortAscNat (trainingDays exs rows)) ∧
      (get_analytics_v4 rows exs bls props period now).maxGap.status =
        (if (get_analytics_v4 rows exs bls props period now).maxGap.value ≤ 4 then "ok"
         else if (get_analytics_v4 rows exs bls props period now).maxGap.value ≤ 7
           then "warning"
         else "vkat")) ∧
    ((get_analytics_v4 logScenarioJan2026 [] [] [] 14 46043).maxGap.value = 12 ∧
     (get_analytics_v4 logScenarioJan2026 [] [] [] 14 46043).maxGap.status = "vkat" ∧
     (get_analytics_v4 logScenarioJan2026 [] [] [] 14 46043).mode = "Вкат") := by
  constructor
  · intro rows exs bls props period now
    exact ⟨analytics_maxGap_value rows exs bls props period now,
      analytics_maxGap_status rows exs bls props period now⟩
  · have hval : (get_analytics_v4 logScenarioJan2026 [] [] [] 14 46043).maxGap.value = 12 := by
      rw [analytics_maxGap_value logScenarioJan2026 [] [] [] 14 46043]
      decide
    refine ⟨hval, ?_, ?_⟩
    · rw [analytics_maxGap_status logScenarioJan2026 [] [] [] 14 46043, hval]
      decide
    · rw [analytics_mode logScenarioJan2026 [] [] [] 14 46043, hval,
        if_pos (by norm_num : (7:ℤ) < 12)]

/-- C6: the Mode of every analytics response follows the priority order of
the source: Max Gap > 7 days gives "Вкат" (Return); otherwise a Frequency
Score below 0.6 gives "Поддержание" (Maintenance); otherwise "Стабильный"
(Stable). -/
theorem C6_mode_priority (rows : List LogRow) (exs : List Exercise)
    (bls : List (String × StoredBaseline)) (props : List ProposalOut)
    (period : ℤ) (now : ℚ) :
    (get_analytics_v4 rows exs bls props period now).mode =
      (if 7 < (get_analytics_v4 rows exs bls props period now).maxGap.value then "Вкат"
       else if (get_analytics_v4 rows exs bls props period now).frequencyScore.value <
           (3:ℚ)/5 then "Поддержание"
       else "Стабильный") :=
  analytics_mode rows exs bls props period now

/-- C7 (counterexample): the reported Frequency Score value is `round(a/t, 2)`,
not the exact ratio: one session in a 7-day window gives actual 1, target 3
and the value `0.33 ≠ 1/3`. -/
theorem C7_counterexample :
    (get_analytics_v4 logSingleSession [] [] [] 7 (201/2)).frequencyScore.actual = 1 ∧
    (get_analytics_v4 logSingleSession [] [] [] 7 (201/2)).frequencyScore.target = 3 ∧
    (get_analytics_v4 logSingleSession [] [] [] 7 (201/2)).frequencyScore.value = 33/100 ∧
    (33 : ℚ)/100 ≠ 1/3 := by
  have hact : (get_analytics_v4 logSingleSession [] [] [] 7 (201/2)).frequencyScore.actual = 1 := by
    rw [analytics_fs_actual logSingleSession [] [] [] 7 (201/2)]
    have hsets : buildAllSets [] logSingleSession =
        [{ date := some 100, exId := "e1", weight := 50, reps := 5, rir := none,
           equipmentType := "barbell", exerciseType := "compound" }] := by decide
    unfold refActualSessions
    rw [hsets]
    have h1 : (201 : ℚ)/2 - ((7:ℤ) : ℚ) ≤ ((100:ℕ) : ℚ) := by norm_num
    have h2 : (201 : ℚ)/2 ≤ 100 + 7 := by norm_num
    simp [List.filter, h1, h2]
  have htgt : (get_analytics_v4 logSingleSession [] [] [] 7 (201/2)).frequencyScore.target = 3 := by
    rw [analytics_fs_target logSingleSession [] [] [] 7 (201/2)]
    exact target_eq_of_period 7 3 (by norm_num) (by norm_num)
  have hval := analytics_fs_value logSingleSession [] [] [] 7 (201/2)
  rw [hact, htgt] at hval
  have hcomp : roundQ2 (((1:ℕ) : ℚ) / ((3:ℤ) : ℚ)) = 33/100 := by
    have hfl : ⌊((1:ℕ) : ℚ) / ((3:ℤ) : ℚ) * 100⌋ = 33 := by norm_num
    unfold roundQ2 roundHalfEven
    rw [hfl]
    norm_num
  exact ⟨hact, htgt, hval.trans hcomp, by norm_num⟩

/-- C7 (amended): for the documented periods 7/14/21/28, the Frequency
Score target equals `ceil(period/7 × 3)`, the actual-session count is the
number of distinct training dates inside the trailing period window, the
reported value is `actual / target` rounded to two decimals (banker's
rounding), and the status is green at ≥ 0.8, yellow at ≥ 0.6, red below. -/
theorem C7_frequency_score (rows : List LogRow) (exs : List Exercise)
    (bls : List (String × StoredBaseline)) (props : List ProposalOut)
    (now : ℚ) (period : ℤ)
    (hp : period = 7 ∨ period = 14 ∨ period = 21 ∨ period = 28) :
    (get_analytics_v4 rows exs bls props period now).frequencyScore.target =
      ⌈(period : ℚ) / 7 * 3⌉ ∧
    (get_analytics_v4 rows exs bls props period now).frequencyScore.actual =
      refActualSessions exs rows period now ∧
    (get_analytics_v4 rows exs bls props period now).frequencyScore.value =
      roundQ2 (((get_analytics_v4 rows exs bls props period now).frequencyScore.actual : ℚ) /
        ((get_analytics_v4 rows exs bls props period now).frequencyScore.target : ℚ)) ∧
    (get_analytics_v4 rows exs bls props period now).frequencyScore.status =
      (if (4:ℚ)/5 ≤ (get_analytics_v4 rows exs bls props period now).frequencyScore.value
        then "green"
       else if (3:ℚ)/5 ≤ (get_analytics_v4 rows exs bls props period now).frequencyScore.value
        then "yellow"
       else "red") := by
  refine ⟨?_, analytics_fs_actual rows exs bls props period now,
    analytics_fs_value rows exs bls props period now,
    analytics_fs_status rows exs bls props period now⟩
  rw [analytics_fs_target rows exs bls props period now]
  exact target_eq_ceil period hp

/-- C7 (witness): the amended statement instantiated at a concrete log and
period 7. -/
theorem C7_witness :
    (get_analytics_v4 logSingleSession [] [] [] 7 (201/2)).frequencyScore.target =
      ⌈((7:ℤ) : ℚ) / 7 * 3⌉ ∧
    (get_analytics_v4 logSingleSession [] [] [] 7 (201/2)).frequencyScore.actual =
      refActualSessions [] logSingleSession 7 (201/2) ∧
    (get_analytics_v4 logSingleSession [] [] [] 7 (201/2)).frequencyScore.value =
      roundQ2 (((get_analytics_v4 logSingleSession [] [] [] 7 (201/2)).frequencyScore.actual : ℚ) /
        ((get_analytics_v4 logSingleSession [] [] [] 7 (201/2)).frequencyScore.target : ℚ)) ∧
    (get_analytics_v4 logSingleSession [] [] [] 7 (201/2)).frequencyScore.status =
      (if (4:ℚ)/5 ≤ (get_analytics_v4 logSingleSession [] [] [] 7 (201/2)).frequencyScore.value
        then "green"
       else if (3:ℚ)/5 ≤ (get_analytics_v4 logSingleSession [] [] [] 7 (201/2)).frequencyScore.value
        then "yellow"
       else "red") :=
  C7_frequency_score logSingleSession [] [] [] (201/2) 7 (Or.inl rfl)

/-- C8: the analytics computation is a total function of its inputs, and
whenever no usable dated set exists — the log is empty, every date token is
blank or unparseable, or every row has non-positive load or reps — it
returns exactly the documented empty/neutral default structure (zero
Frequency Score with status red, zero Max Gap with status ok, no baselines,
no proposals). -/
theorem C8_empty_default (rows : List LogRow) (exs : List Exercise)
    (bls : List (String × StoredBaseline)) (props : List ProposalOut)
    (period : ℤ) (now : ℚ)
    (h : ∀ r ∈ rows, r.dateCell.isParsed = false ∨
      get_weight_from_row r.weightCell r.totalWeightCell ≤ 0 ∨ r.repsCell ≤ 0) :
    get_analytics_v4 rows exs bls props period now = empty_analytics_v4 period := by
  by_cases h1 : rows.isEmpty
  · exact analytics_eq_empty_of_rows h1
  · by_cases h2 : (buildAllSets exs rows).isEmpty
    · exact analytics_eq_empty_of_sets h2
    · refine analytics_eq_empty_of_nodate ?_
      rw [List.any_eq_false]
      intro s hs
      rcases List.mem_filterMap.mp hs with ⟨r, hr, hbuild⟩
      rcases h r hr with hp | hbad
      · rw [buildSetFromRow_some_date hbuild hp]
        simp
      · rw [buildSetFromRow_none_of_bad hbad] at hbuild
        exact Option.noConfusion hbuild

/-- C8 (witness): a log holding an unparseable-date row, a zero-weight row
and a zero-reps row produces the empty analytics default. -/
theorem C8_witness :
    get_analytics_v4 logAllUnusable [] [] [] 21 46043 = empty_analytics_v4 21 :=
  C8_empty_default logAllUnusable [] [] [] 21 46043 (by decide)

/-- C9: a row whose extracted load is ≤ 0 or whose reps are ≤ 0 is excluded
from the `all_sets` stream, and therefore contributes to no analytics
metric: inserting such a row anywhere in the log leaves the whole analytics
response unchanged. -/
theorem C9_nonpositive_excluded (rows₁ rows₂ : List LogRow) (r : LogRow)
    (exs : List Exercise) (bls : List (String × StoredBaseline))
    (props : List ProposalOut) (period : ℤ) (now : ℚ)
    (h : get_weight_from_row r.weightCell r.totalWeightCell ≤ 0 ∨ r.repsCell ≤ 0) :
    buildAllSets exs (rows₁ ++ r :: rows₂) = buildAllSets exs (rows₁ ++ rows₂) ∧
    get_analytics_v4 (rows₁ ++ r :: rows₂) exs bls props period now =
      get_analytics_v4 (rows₁ ++ rows₂) exs bls props period now := by
  have hbuild : buildAllSets exs (rows₁ ++ r :: rows₂) =
      buildAllSets exs (rows₁ ++ rows₂) := by
    unfold buildAllSets
    rw [List.filterMap_append, List.filterMap_append,
      List.filterMap_cons_none (buildSetFromRow_none_of_bad h)]
  refine ⟨hbuild, ?_⟩
  unfold get_analytics_v4
  rw [if_neg (by simp : ¬ ((rows₁ ++ r :: rows₂).isEmpty = true)), hbuild]
  by_cases hemp : (rows₁ ++ rows₂).isEmpty
  · rw [if_pos hemp, List.isEmpty_iff.mp hemp]
    rfl
  · rw [if_neg hemp]

/-- C9 (witness): inserting a zero-load row between two logs leaves both
the set stream and the analytics response unchanged. -/
theorem C9_witness :
    buildAllSets [] ([rowGood] ++ rowBadWeight :: []) = buildAllSets [] ([rowGood] ++ []) ∧
    get_analytics_v4 ([rowGood] ++ rowBadWeight :: []) [] [] [] 14 46043 =
      get_analytics_v4 ([rowGood] ++ []) [] [] [] 14 46043 :=
  C9_nonpositive_excluded [rowGood] [] rowBadWeight [] [] [] 14 46043 (by decide)

/-- C10 (counterexample): `get_exercise_history` passes the `Total_Weight`
index for both arguments of `_get_weight_from_row`, so a row whose
`Total_Weight` cell parses to 0 shows weight 0 even though the claimed
fallback — the `Weight` column — holds 80. -/
theorem C10_counterexample :
    exercise_history_row_weight rowTotalZero = 0 ∧
    (if 0 < rowTotalZero.totalWeightCell then rowTotalZero.totalWeightCell
     else rowTotalZero.weightCell) = 80 := by
  constructor
  · decide
  · decide

/-- C10 (amended): `get_analytics_v4` uses the `Total_Weight` cell when it
parses to a value strictly greater than 0 and the legacy `Weight` cell
otherwise; the two history views pass the `Total_Weight` column as its own
fallback, so their displayed weight is always the `Total_Weight` parse and
the `Weight` column is never consulted.  No per-equipment normalization is
applied in any of the three readers. -/
theorem C10_weight_extraction (r : LogRow) :
    analytics_row_weight r =
      (if 0 < r.totalWeightCell then r.totalWeightCell else r.weightCell) ∧
    exercise_history_row_weight r = r.totalWeightCell ∧
    global_history_row_weight r = r.totalWeightCell := by
  have hiff : ∀ w tw : ℚ, get_weight_from_row w tw = if 0 < tw then tw else w := by
    intro w tw
    unfold get_weight_from_row
    by_cases h : 0 < tw
    · rw [if_pos ⟨ne_of_gt h, h⟩, if_pos h]
    · rw [if_neg (fun hc => h hc.2), if_neg h]
  refine ⟨hiff _ _, ?_, ?_⟩
  · unfold exercise_history_row_weight
    rw [hiff]
    exact ite_self _
  · unfold global_history_row_weight
    rw [hiff]
    exact ite_self _

/-- C3: when the proposal id is present, a CONFIRM sets the stored Baseline
row of the proposal's exercise to exactly the proposal's `new_baseline`
cell with status `updated` (creating the row when absent), while SNOOZE and
DECLINE leave the BASELINE sheet untouched and change nothing of the
proposal sheet outside the status column.  `hbs` states that the BASELINE
sheet has its header row (it is created with one). -/
theorem C3_confirm_semantics (ps bs : Sheet) (pid today : String)
    (row : List String) (hbs : 1 ≤ bs.length)
    (hf : findProposalRow (ps.drop 1) pid = some row) :
    ((confirm_baseline_proposal ps bs pid "CONFIRM" today).result.success = true ∧
      lookupBaselineCells
        (confirm_baseline_proposal ps bs pid "CONFIRM" today).baselineSheet
        (row.getD 0 "") = some (row.getD 2 "", "updated")) ∧
    (∀ action, action = "SNOOZE" ∨ action = "DECLINE" →
      (confirm_baseline_proposal ps bs pid action today).baselineSheet = bs ∧
      (confirm_baseline_proposal ps bs pid action today).proposalsSheet.length =
        ps.length ∧
      ∃ k, findProposalIdx ps pid = some k ∧
        (∀ i j, ¬ (i = k ∧ j = 7) →
          (((confirm_baseline_proposal ps bs pid action today).proposalsSheet.getD i []).getD j "") =
            ((ps.getD i []).getD j "")) ∧
        (((confirm_baseline_proposal ps bs pid action today).proposalsSheet.getD k []).getD 7 "") =
          action) := by
  have hlen : ¬ (ps.length < 2) := by
    intro hlt
    rw [findProposalRow_of_short hlt] at hf
    exact Option.noConfusion hf
  constructor
  · rw [confirm_found ps bs pid "CONFIRM" today row hf hlen, if_pos rfl]
    exact ⟨rfl, lookupBaselineCells_applyConfirmBaseline bs _ _ today hbs⟩
  · intro action hact
    have hnc : ¬ (action = "CONFIRM") := by
      rcases hact with h | h <;> subst h <;> decide
    rw [confirm_found ps bs pid action today row hf hlen, if_neg hnc]
    cases ps with
    | nil => exact absurd (by simp : ([] : Sheet).length < 2) hlen
    | cons hdr rest =>
      obtain ⟨m, hm⟩ := findIdxRows_of_findProposalRow hf
      have hm' : findIdxRows rest pid = some m := hm
      refine ⟨rfl, ?_, ?_⟩
      · show (hdr :: updateProposalRows rest pid action).length = (hdr :: rest).length
        rw [List.length_cons, List.length_cons, length_updateProposalRows]
      · refine ⟨m + 1, ?_, ?_, ?_⟩
        · show (findIdxRows rest pid).map (fun m => m + 1) = some (m + 1)
          rw [hm']
          rfl
        · intro i j hij
          cases i with
          | zero => rfl
          | succ n =>
            show ((updateProposalRows rest pid action).getD n []).getD j "" =
              (rest.getD n []).getD j ""
            refine updateProposalRows_cell_other rest pid action m hm' n j ?_
            rintro ⟨h1, h2⟩
            exact hij ⟨by rw [h1], h2⟩
        · show ((updateProposalRows rest pid action).getD m []).getD 7 "" = action
          exact updateProposalRows_cell_status rest pid action m hm'

/-- C3 (witness): at a concrete PENDING proposal and a header-only
BASELINE sheet, CONFIRM succeeds and stores baseline "110" with status
"updated", while SNOOZE leaves the BASELINE sheet unchanged. -/
theorem C3_witness :
    (confirm_baseline_proposal proposalsSheetPending baselineSheetHeaderOnly
      "p1" "CONFIRM" "2026-02-01").result.success = true ∧
    lookupBaselineCells
      (confirm_baseline_proposal proposalsSheetPending baselineSheetHeaderOnly
        "p1" "CONFIRM" "2026-02-01").baselineSheet "ex1" = some ("110", "updated") ∧
    (confirm_baseline_proposal proposalsSheetPending baselineSheetHeaderOnly
      "p1" "SNOOZE" "2026-02-01").baselineSheet = baselineSheetHeaderOnly ∧
    (∃ k, findProposalIdx proposalsSheetPending "p1" = some k ∧
      (∀ i j, ¬ (i = k ∧ j = 7) →
        (((confirm_baseline_proposal proposalsSheetPending baselineSheetHeaderOnly
            "p1" "SNOOZE" "2026-02-01").proposalsSheet.getD i []).getD j "") =
          ((proposalsSheetPending.getD i []).getD j "")) ∧
      (((confirm_baseline_proposal proposalsSheetPending baselineSheetHeaderOnly
          "p1" "SNOOZE" "2026-02-01").proposalsSheet.getD k []).getD 7 "") = "SNOOZE") := by
  have h := C3_confirm_semantics proposalsSheetPending baselineSheetHeaderOnly
    "p1" "2026-02-01" proposalRowPending (by decide) (by decide)
  exact ⟨h.1.1, h.1.2, (h.2 "SNOOZE" (Or.inl rfl)).1, (h.2 "SNOOZE" (Or.inl rfl)).2.2⟩

/-- C4 (counterexample): the source never checks that the proposal is
PENDING — a CONFIRM on an already-DECLINEd proposal succeeds and mutates
the BASELINE sheet, where the claim requires a rejection with no change. -/
theorem C4_counterexample :
    (confirm_baseline_proposal proposalsSheetDeclined baselineSheetHeaderOnly
      "p1" "CONFIRM" "2026-02-01").result.success = true ∧
    (confirm_baseline_proposal proposalsSheetDeclined baselineSheetHeaderOnly
      "p1" "CONFIRM" "2026-02-01").baselineSheet ≠ baselineSheetHeaderOnly := by
  constructor
  · decide
  · decide

/-- C4 (amended): a confirmation request whose proposal id is absent from
the ledger (or arrives at a ledger without data rows) is rejected with an
explicit reason and leaves both ledgers unchanged; but a request whose
proposal id exists is applied regardless of the proposal's current status —
the PENDING check claimed by the spec is not performed. -/
theorem C4_rejection_behavior (ps bs : Sheet) (pid action today : String) :
    (findProposalRow (ps.drop 1) pid = none →
      (confirm_baseline_proposal ps bs pid action today).result.success = false ∧
      (confirm_baseline_proposal ps bs pid action today).result.error ≠ none ∧
      (confirm_baseline_proposal ps bs pid action today).proposalsSheet = ps ∧
      (confirm_baseline_proposal ps bs pid action today).baselineSheet = bs) ∧
    (∀ row, findProposalRow (ps.drop 1) pid = some row →
      (confirm_baseline_proposal ps bs pid action today).result.success = true) := by
  constructor
  · intro hnone
    by_cases hlen : ps.length < 2
    · rw [confirm_short ps bs pid action today hlen]
      exact ⟨rfl, by simp, rfl, rfl⟩
    · rw [confirm_notfound ps bs pid action today hnone hlen]
      exact ⟨rfl, by simp, rfl, rfl⟩
  · intro row hrow
    have hlen : ¬ (ps.length < 2) := by
      intro hlt
      rw [findProposalRow_of_short hlt] at hrow
      exact Option.noConfusion hrow
    rw [confirm_found ps bs pid action today row hrow hlen]
    split
    · rfl
    · rfl

/-- C4 (witness): a missing proposal id is rejected with no ledger change,
while a CONFIRM of an existing (already DECLINEd) proposal succeeds. -/
theorem C4_witness :
    ((confirm_baseline_proposal proposalsSheetPending baselineSheetHeaderOnly
        "nope" "CONFIRM" "2026-02-01").result.success = false ∧
      (confirm_baseline_proposal proposalsSheetPending baselineSheetHeaderOnly
        "nope" "CONFIRM" "2026-02-01").baselineSheet = baselineSheetHeaderOnly) ∧
    (confirm_baseline_proposal proposalsSheetDeclined baselineSheetHeaderOnly
      "p1" "CONFIRM" "2026-02-01").result.success = true := by
  have h1 := C4_rejection_behavior proposalsSheetPending baselineSheetHeaderOnly
    "nope" "CONFIRM" "2026-02-01"
  have h2 := C4_rejection_behavior proposalsSheetDeclined baselineSheetHeaderOnly
    "p1" "CONFIRM" "2026-02-01"
  refine ⟨⟨(h1.1 (by decide)).1, (h1.1 (by decide)).2.2.2⟩, ?_⟩
  exact h2.2 ["ex1", "100", "110", "2.5", "ev", "2026-01-01", "2026-01-15",
    "DECLINE", "p1"] (by decide)

end GymApp
